import Mathlib

/-!
Verification of the hardware-inventory collection engine of the farm-manager
agent (src/hardware/*.rs).  The Rust collectors are shallowly embedded as pure
Lean functions: filesystem reads, symlink reads and external-tool invocations
become explicit environment records whose fields hold the raw data those
sources would return (absent file / failed tool = none).  Machine integers are
Nat with an explicit wrap (mod 2 ^ 64 or 2 ^ 32) at the accumulation points
where the Rust u64/u32 arithmetic could overflow.

String processing is re-implemented over character lists (structural
recursion), mirroring the behaviour of the Rust std string functions the
collectors use (split on a char, trim, substring containment, to_lowercase,
integer parsing); this keeps every definition kernel-evaluable.
-/

namespace FarmManager

/-! ## Character-list string utilities (models of the Rust std functions) -/

/-- Characters of a string. -/
def chars (s : String) : List Char := s.data

/-- String from characters. -/
def ofChars (l : List Char) : String := String.mk l

/-- Model of Rust str::trim on a character list: drop leading and trailing
whitespace. -/
def trimChars (l : List Char) : List Char :=
  ((l.dropWhile Char.isWhitespace).reverse.dropWhile Char.isWhitespace).reverse

/-- Model of Rust str::trim producing a string. -/
def trimStr (s : String) : String := ofChars (trimChars (chars s))

/-- Emptiness of a string via its characters. -/
def strIsEmpty (s : String) : Bool := (chars s).isEmpty

/-- Model of Rust str::starts_with for string patterns. -/
def startsWithStr (s pat : String) : Bool := (chars pat).isPrefixOf (chars s)

/-- Substring containment on character lists (Rust str::contains with a str
pattern; the empty pattern is contained in every string). -/
def containsCharsAux : List Char → List Char → Bool
  | s, pat =>
    if pat.isPrefixOf s then true
    else match s with
      | [] => false
      | _ :: t => containsCharsAux t pat

/-- Model of Rust str::contains with a string pattern. -/
def containsStr (s pat : String) : Bool := containsCharsAux (chars s) (chars pat)

/-- Model of Rust str::contains with a char pattern. -/
def containsChar (s : String) (c : Char) : Bool := (chars s).contains c

/-- Count of occurrences of a character (Rust str::matches(c).count()). -/
def countChar (s : String) (c : Char) : Nat := (chars s).count c

/-- Split a character list at every occurrence of the separator character.
Mirrors Rust str::split(char): always at least one piece, empty pieces kept. -/
def splitCharsOn (c : Char) : List Char → List (List Char)
  | [] => [[]]
  | x :: t =>
    let r := splitCharsOn c t
    if x = c then [] :: r
    else match r with
      | [] => [[x]]
      | h :: t2 => (x :: h) :: t2

/-- Model of Rust str::split(char), as strings. -/
def splitStrOn (s : String) (c : Char) : List String :=
  (splitCharsOn c (chars s)).map ofChars

/-- Model of Rust str::split_once(char): the part before the first occurrence
and everything after it. -/
def splitOnceStr (s : String) (c : Char) : Option (String × String) :=
  match splitCharsOn c (chars s) with
  | [] => none
  | [_] => none
  | h :: rest => some (ofChars h, ofChars (List.intercalate [c] rest))

/-- Model of Rust str::lines: split on the newline character, with a trailing
newline producing no final empty line. -/
def linesOf (s : String) : List String :=
  let ls := splitCharsOn '\n' (chars s)
  let ls := if ls.getLast? = some [] then ls.dropLast else ls
  ls.map ofChars

/-- Model of Rust str::split_whitespace: maximal runs of non-whitespace. -/
def splitWhitespaceStr (s : String) : List String :=
  ((chars s).splitOnP Char.isWhitespace).filter (fun p => !p.isEmpty) |>.map ofChars

/-- Lower-case a string character by character (model of str::to_lowercase on
the ASCII data the collectors feed it). -/
def lowerStr (s : String) : String := ofChars ((chars s).map Char.toLower)

/-- Upper-case a string character by character (model of str::to_uppercase on
the ASCII data the collectors feed it). -/
def upperStr (s : String) : String := ofChars ((chars s).map Char.toUpper)

/-- Numeric value of a decimal digit list, none if any char is not a digit or
the list is empty. -/
def digitsToNat : List Char → Option Nat
  | [] => none
  | l =>
    if l.all Char.isDigit then
      some (l.foldl (fun acc c => acc * 10 + (c.toNat - 48)) 0)
    else none

/-- Model of Rust str::parse::<uN>: optional leading plus sign, decimal
digits, failure on anything else; the caller imposes the width bound. -/
def parseNatStr (s : String) : Option Nat :=
  match chars s with
  | '+' :: rest => digitsToNat rest
  | l => digitsToNat l

/-- Rust u64 parse: value must fit in 64 bits. -/
def parseU64 (s : String) : Option Nat :=
  (parseNatStr s).filter (fun n => n < 2 ^ 64)

/-- Rust u32 parse: value must fit in 32 bits. -/
def parseU32 (s : String) : Option Nat :=
  (parseNatStr s).filter (fun n => n < 2 ^ 32)

/-- Rust i32 parse: optional minus sign, value within the i32 range. -/
def parseI32 (s : String) : Option Int :=
  match chars s with
  | '-' :: rest => (digitsToNat rest).bind
      (fun n => if n ≤ 2 ^ 31 then some (-(n : Int)) else none)
  | _ => (parseNatStr s).bind
      (fun n => if n < 2 ^ 31 then some (n : Int) else none)

/-- Value of one hexadecimal digit. -/
def hexDigitVal (c : Char) : Option Nat :=
  if c.isDigit then some (c.toNat - 48)
  else if 'a' ≤ c ∧ c ≤ 'f' then some (c.toNat - 87)
  else if 'A' ≤ c ∧ c ≤ 'F' then some (c.toNat - 70)
  else none

/-- Hexadecimal value of a character list, none if empty or any char is not a
hex digit. -/
def hexToNat : List Char → Option Nat
  | [] => none
  | l => l.foldl (fun acc c => acc.bind (fun a => (hexDigitVal c).map (a * 16 + ·)))
      (some 0)

/-- Model of Rust u16::from_str_radix(s, 16). -/
def parseHexU16 (s : String) : Option Nat :=
  (hexToNat (chars s)).filter (fun n => n < 2 ^ 16)

/-- Model of Rust str::strip_prefix("0x").unwrap_or(s). -/
def stripHexMarkOr (s : String) : String :=
  match chars s with
  | '0' :: 'x' :: rest => ofChars rest
  | _ => s

/-- Lower-case hexadecimal digits of a number (most significant first),
written with a digit-count fuel so that it reduces structurally; 16 digits
cover every 64-bit value. -/
def hexDigitsAux : Nat → Nat → List Char
  | 0, _ => []
  | fuel + 1, n =>
    if n = 0 then []
    else hexDigitsAux fuel (n / 16) ++ ["0123456789abcdef".data.getD (n % 16) '0']

/-- Model of Rust format with 04x: lower-case hex, zero-padded to width 4. -/
def hex4 (n : Nat) : String :=
  let ds := if n = 0 then ['0'] else hexDigitsAux 16 n
  ofChars (List.replicate (4 - ds.length) '0' ++ ds)

/-- Model of Rust f32 string parsing at the precision the claims need: the
token is kept textually when it is shaped like a decimal number (optional
sign, digits, optional fractional part); numeric rounding is not modelled.
No claim depends on float values. -/
def parseF32Token (s : String) : Option String :=
  let body := fun (l : List Char) =>
    match splitCharsOn '.' l with
    | [a] => (digitsToNat a).isSome
    | [a, b] => ((digitsToNat a).isSome && (digitsToNat b).isSome)
    | _ => false
  match chars s with
  | '-' :: rest => if body rest then some s else none
  | '+' :: rest => if body rest then some s else none
  | l => if body l then some s else none

/-- First-key association-list lookup, used to build concrete filesystem and
tool environments. -/
def lookupList (ps : List (String × String)) (k : String) : Option String :=
  (ps.find? (fun q => q.1 = k)).map (fun q => q.2)

/-- Model of Rust Path::join on the string paths the collectors build: an
empty component leaves the base unchanged (PathBuf keeps only a trailing
separator, which resolves to the same file). -/
def pathJoin (base comp : String) : String :=
  if strIsEmpty comp then base else base ++ "/" ++ comp

/-- Final component of a path string (Rust Path::file_name for the symlink
targets the collectors read). -/
def pathFileName (p : String) : Option String :=
  match (splitStrOn p '/').getLast? with
  | some last => if strIsEmpty last then none else some last
  | none => none

/-! ## Data model (src/hardware/types.rs)

Rust u64/u32/u16 values are Nat, i32 is Int, f32 fields are kept as the raw
accepted token (see parseF32Token). -/

/-- types.rs DimmInfo. -/
structure DimmInfo where
  slot : Option String
  size_bytes : Option Nat
  mem_type : Option String
  speed_mt_s : Option Nat
  manufacturer : Option String
  serial_number : Option String
  part_number : Option String
deriving Repr, DecidableEq

/-- types.rs MemoryInfo. -/
structure MemoryInfo where
  total_bytes : Option Nat
  dimms : List DimmInfo
deriving Repr, DecidableEq

/-- types.rs CpuSocket. -/
structure CpuSocket where
  socket : Nat
  manufacturer : Option String
  model_name : Option String
  num_cores : Option Nat
  num_threads : Option Nat
  capacity_mhz : Option Nat
  slot : Option String
  l1_cache_kb : Option Nat
  l2_cache_kb : Option Nat
  l3_cache_kb : Option Nat
deriving Repr, DecidableEq

/-- types.rs CpuInfo. -/
structure CpuInfo where
  sockets : Option Nat
  cores : Option Nat
  threads : Option Nat
  cpus : List CpuSocket
deriving Repr, DecidableEq

/-- types.rs SmartInfo. -/
structure SmartInfo where
  health : Option String
deriving Repr, DecidableEq

/-- types.rs DiskInfo. -/
structure DiskInfo where
  name : String
  dev_path : String
  model : Option String
  serial : Option String
  size_bytes : Option Nat
  rotational : Option Bool
  bus_type : Option String
  firmware_version : Option String
  smart : Option SmartInfo
deriving Repr, DecidableEq

/-- types.rs IpAddress; the Rust field holding the CIDR length is named after
the network mask length and is rendered here as pre_len. -/
structure IpAddress where
  family : String
  address : String
  pre_len : Nat
deriving Repr, DecidableEq

/-- types.rs RouteInfo. -/
structure RouteInfo where
  dst : String
  gateway : String
  iface : String
deriving Repr, DecidableEq

/-- types.rs NetInterface. -/
structure NetInterface where
  name : String
  mac_address : Option String
  mtu : Option Nat
  speed_mbps : Option Nat
  driver : Option String
  firmware_version : Option String
  vendor_name : Option String
  device_name : Option String
  pci_address : Option String
  addresses : List IpAddress
  is_primary : Bool
  bond_group : Option String
  bond_master : Option String
deriving Repr, DecidableEq

/-- types.rs NetworkInfo. -/
structure NetworkInfo where
  interfaces : List NetInterface
  routes : List RouteInfo
deriving Repr, DecidableEq

/-- types.rs GpuInfo. -/
structure GpuInfo where
  vendor : Option String
  model : Option String
  pci_address : Option String
  vram_mb : Option Nat
  driver_version : Option String
  uuid : Option String
deriving Repr, DecidableEq

/-- types.rs PowerSupplyInfo; the four f32 fields hold the accepted numeric
token (see parseF32Token). -/
structure PowerSupplyInfo where
  name : Option String
  manufacturer : Option String
  model : Option String
  serial_number : Option String
  part_number : Option String
  max_power_watts : Option Nat
  efficiency_rating : Option String
  status : Option String
  input_voltage : Option String
  input_current : Option String
  output_voltage : Option String
  output_current : Option String
  temperature_c : Option Int
  fan_speed_rpm : Option Nat
deriving Repr, DecidableEq

/-- types.rs BmcInfo. -/
structure BmcInfo where
  ip_address : Option String
  mac_address : Option String
  firmware_version : Option String
  release_date : Option String
deriving Repr, DecidableEq

/-- types.rs MotherboardInfo. -/
structure MotherboardInfo where
  manufacturer : Option String
  product_name : Option String
  version : Option String
  serial_number : Option String
deriving Repr, DecidableEq

/-- types.rs BiosInfo. -/
structure BiosInfo where
  vendor : Option String
  version : Option String
  release_date : Option String
deriving Repr, DecidableEq

/-- types.rs NodeInfo. -/
structure NodeInfo where
  hostname : String
  architecture : String
  product_name : Option String
  manufacturer : Option String
  serial_number : Option String
  chassis_manufacturer : Option String
  chassis_serial_number : Option String
  motherboard : Option MotherboardInfo
  bios : Option BiosInfo
  bmc : Option BmcInfo
deriving Repr, DecidableEq

/-- types.rs Inventory. -/
structure Inventory where
  agent_version : String
  node : NodeInfo
  cpu : CpuInfo
  memory : MemoryInfo
  disks : List DiskInfo
  network : NetworkInfo
  gpus : List GpuInfo
  power_supplies : List PowerSupplyInfo
deriving Repr, DecidableEq

/-! ## Memory collector (src/hardware/collect_memory.rs)

The smbioslib values the collector matches on are embedded as enums; one
RawMemoryDevice carries the accessor results for one SMBIOS memory-device
record.  The two different Debug renderings of the memory type
(format of mem_type.value in the SeeExtendedSize branch versus format of the
whole MemoryTypeData in the other two branches) are carried as two separate
raw fields. -/

/-- smbioslib MemorySize as matched by the collector; every variant the code
sends to its catch-all arm is Unresolved. -/
inductive MemSize where
  | Kilobytes (kb : Nat)
  | Megabytes (mb : Nat)
  | SeeExtendedSize
  | Unresolved
deriving Repr, DecidableEq

/-- smbioslib MemorySizeExtended as matched by the collector. -/
inductive MemSizeExtended where
  | Megabytes (mb : Nat)
  | SeeSize
deriving Repr, DecidableEq

/-- smbioslib MemorySpeed as matched by the collector. -/
inductive MemSpeed where
  | MTs (mts : Nat)
  | Unresolved
deriving Repr, DecidableEq

/-- One SMBIOS memory-device record, at the granularity of the smbioslib
accessors the collector calls. -/
structure RawMemoryDevice where
  size : Option MemSize
  extended_size : Option MemSizeExtended
  device_locator : Option String
  mem_type_value_dbg : Option String
  mem_type_full_dbg : Option String
  configured_speed : Option MemSpeed
  max_speed : Option MemSpeed
  manufacturer : Option String
  serial_number : Option String
  part_number : Option String
deriving Repr, DecidableEq

/-- Shared pattern of the collector's string handling: keep the accessor
value only when non-empty (slot labels). -/
def keepNonEmpty (o : Option String) : Option String :=
  o.bind (fun s => if strIsEmpty s then none else some s)

/-- Shared pattern of the collector's string handling: keep the accessor
value only when non-empty and not the literal Not Specified (manufacturer,
serial number, part number). -/
def keepNotSpecified (o : Option String) : Option String :=
  o.bind (fun s =>
    if strIsEmpty s then none
    else if s = "Not Specified" then none
    else some s)

/-- Memory-type filtering: upper-cased Debug text kept unless it is UNKNOWN. -/
def keepMemType (o : Option String) : Option String :=
  o.bind (fun s =>
    let t := upperStr s
    if t = "UNKNOWN" then none else some t)

/-- Speed resolution: configured speed if the accessor returned anything
(positive MTs kept, otherwise nothing), else the rated/max speed. -/
def resolveMemSpeed (cfg max : Option MemSpeed) : Option Nat :=
  match cfg with
  | some (MemSpeed.MTs mts) => if mts > 0 then some mts else none
  | some MemSpeed.Unresolved => none
  | none =>
    match max with
    | some (MemSpeed.MTs mts) => if mts > 0 then some mts else none
    | _ => none

/-- Megabyte-field size computation of the collector: the sentinel 0x7FFF
defers to the extended-size field, any other value (and a missing or
non-megabyte extended record under the sentinel) is multiplied out. -/
def megabytesFieldBytes (mb : Nat) (ext : Option MemSizeExtended) : Nat :=
  if mb = 0x7FFF then
    match ext with
    | some (MemSizeExtended.Megabytes mbExt) => mbExt * 1024 * 1024
    | some MemSizeExtended.SeeSize => mb * 1024 * 1024
    | none => mb * 1024 * 1024
  else mb * 1024 * 1024

/-- The size match inside the Kilobytes branch of the collector (it re-matches
the full size value). -/
def sizeFromSizeInfo (si : MemSize) (ext : Option MemSizeExtended) : Nat :=
  match si with
  | MemSize.Kilobytes kb => kb * 1024
  | MemSize.Megabytes mb => megabytesFieldBytes mb ext
  | _ => 0

/-- Extended-size resolution of the SeeExtendedSize branch: only a positive
extended megabyte count yields a size. -/
def extendedSizeBytes (ext : Option MemSizeExtended) : Option Nat :=
  match ext with
  | some (MemSizeExtended.Megabytes mb) => if mb > 0 then some (mb * 1024 * 1024) else none
  | _ => none

/-- The SeeExtendedSize branch of collect_memory_with_smbios: the DIMM is
pushed only when a size was resolved. -/
def dimmOfSeeExtended (r : RawMemoryDevice) : Option DimmInfo :=
  let dimm : DimmInfo :=
    { slot := keepNonEmpty r.device_locator
      size_bytes := extendedSizeBytes r.extended_size
      mem_type := keepMemType r.mem_type_value_dbg
      speed_mt_s := resolveMemSpeed r.configured_speed r.max_speed
      manufacturer := keepNotSpecified r.manufacturer
      serial_number := keepNotSpecified r.serial_number
      part_number := keepNotSpecified r.part_number }
  if dimm.size_bytes.isSome then some dimm else none

/-- The Kilobytes branch of collect_memory_with_smbios (guard kb > 0); the
DIMM is pushed unconditionally, the size only recorded when positive. -/
def dimmOfKilobytes (r : RawMemoryDevice) (kb : Nat) : DimmInfo :=
  let size_bytes := sizeFromSizeInfo (MemSize.Kilobytes kb) r.extended_size
  { slot := keepNonEmpty r.device_locator
    size_bytes := if size_bytes > 0 then some size_bytes else none
    mem_type := keepMemType r.mem_type_full_dbg
    speed_mt_s := resolveMemSpeed r.configured_speed r.max_speed
    manufacturer := keepNotSpecified r.manufacturer
    serial_number := keepNotSpecified r.serial_number
    part_number := keepNotSpecified r.part_number }

/-- The Megabytes branch of collect_memory_with_smbios (guard mb > 0); the
size is recorded unconditionally. -/
def dimmOfMegabytes (r : RawMemoryDevice) (mb : Nat) : DimmInfo :=
  { slot := keepNonEmpty r.device_locator
    size_bytes := some (megabytesFieldBytes mb r.extended_size)
    mem_type := keepMemType r.mem_type_full_dbg
    speed_mt_s := resolveMemSpeed r.configured_speed r.max_speed
    manufacturer := keepNotSpecified r.manufacturer
    serial_number := keepNotSpecified r.serial_number
    part_number := keepNotSpecified r.part_number }

/-- One loop iteration of collect_memory_with_smbios for one memory-device
record: at most one DIMM is pushed, chosen by the size-variant match with its
positivity guards (records hitting the catch-all arms are skipped). -/
def processMemoryDevice (r : RawMemoryDevice) : Option DimmInfo :=
  match r.size with
  | none => none
  | some MemSize.SeeExtendedSize => dimmOfSeeExtended r
  | some (MemSize.Kilobytes kb) => if kb > 0 then some (dimmOfKilobytes r kb) else none
  | some (MemSize.Megabytes mb) => if mb > 0 then some (dimmOfMegabytes r mb) else none
  | some MemSize.Unresolved => none

/-- collect_memory_with_smbios over the memory-device records of the firmware
table (an unreadable table gives the empty record list). -/
def collect_memory_with_smbios (rs : List RawMemoryDevice) : List DimmInfo :=
  rs.filterMap processMemoryDevice

/-- The u64 total accumulation of collect_memory_info, with 64-bit wrap. -/
def accumTotalBytes (dimms : List DimmInfo) : Nat :=
  dimms.foldl (fun t d =>
    match d.size_bytes with
    | some size => (t + size) % 2 ^ 64
    | none => t) 0

/-- collect_memory_info: total the DIMM sizes, reporting the total as absent
when it is zero. -/
def collect_memory_info (rs : List RawMemoryDevice) : MemoryInfo :=
  let dimms := collect_memory_with_smbios rs
  let total_bytes := accumTotalBytes dimms
  { total_bytes := if total_bytes > 0 then some total_bytes else none
    dimms := dimms }

/-- Mathematical sum of the present DIMM sizes. -/
def dimmSizesSum (dimms : List DimmInfo) : Nat :=
  (dimms.map (fun d => d.size_bytes.getD 0)).sum

/-! ## CPU collector (src/hardware/collect_cpu.rs)

Processor records are the ProcessorInformation structures of the firmware
table in table order; cache records are the CacheInformation structures with
their table handles.  collect_cpu_info keys sockets 0,1,... in a HashMap and
then sorts by that key; since the keys are the distinct ascending insertion
indices, this is embedded as the in-order list, and the commutative total
sums over HashMap values as folds over that list. -/

/-- smbioslib cache installed_size as recovered by the Debug-string parse of
get_cache_size_by_handle: only the Kilobytes rendering parses. -/
inductive CacheSizeVal where
  | Kilobytes (kb : Nat)
  | Unresolved
deriving Repr, DecidableEq

/-- One CacheInformation structure: its table handle and installed size. -/
structure CacheRecord where
  handle : Nat
  installed_size : Option CacheSizeVal
deriving Repr, DecidableEq

/-- smbioslib ThreadCount / CoreCount as matched by the collector. -/
inductive CountVal where
  | Count (n : Nat)
  | Unresolved
deriving Repr, DecidableEq

/-- smbioslib ProcessorSpeed as matched by the collector. -/
inductive SpeedVal where
  | MHz (mhz : Nat)
  | Unresolved
deriving Repr, DecidableEq

/-- One ProcessorInformation record, at the granularity of the smbioslib
accessors the collector calls. -/
structure RawProcessor where
  socket_designation : Option String
  processor_manufacturer : Option String
  processor_version : Option String
  thread_count : Option CountVal
  core_count : Option CountVal
  current_speed : Option SpeedVal
  max_speed : Option SpeedVal
  l1cache_handle : Option Nat
  l2cache_handle : Option Nat
  l3cache_handle : Option Nat
deriving Repr, DecidableEq

/-- get_cache_size_by_handle: scan for the first cache record with the wanted
handle and stop there; only a Kilobytes installed size survives the
Debug-string parse. -/
def get_cache_size_by_handle : List CacheRecord → Nat → Option Nat
  | [], _ => none
  | c :: rest, h =>
    if c.handle = h then
      match c.installed_size with
      | some (CacheSizeVal.Kilobytes kb) => some kb
      | _ => none
    else get_cache_size_by_handle rest h

/-- A positive count accepted from a firmware count field; zero or an
unresolved rendering is treated as unknown. -/
def acceptCount (v : Option CountVal) : Option Nat :=
  match v with
  | some (CountVal.Count n) => if n > 0 then some n else none
  | _ => none

/-- A positive MHz value accepted from a firmware speed field. -/
def acceptSpeed (v : Option SpeedVal) : Option Nat :=
  match v with
  | some (SpeedVal.MHz mhz) => if mhz > 0 then some mhz else none
  | _ => none

/-- One loop iteration of collect_with_smbios: build the CpuSocket for a
processor record at the given running socket index.  Current speed is taken
when positive; the max speed fills in only when the capacity is still
absent. -/
def buildCpuSocket (caches : List CacheRecord) (idx : Nat) (p : RawProcessor) : CpuSocket :=
  let capacity0 := acceptSpeed p.current_speed
  { socket := idx
    manufacturer := keepNonEmpty p.processor_manufacturer
    model_name :=
      p.processor_version.bind (fun v =>
        let trimmed := trimStr v
        if strIsEmpty trimmed then none
        else if trimmed = "Not Specified" then none
        else some trimmed)
    num_cores := acceptCount p.core_count
    num_threads := acceptCount p.thread_count
    capacity_mhz :=
      match capacity0 with
      | some mhz => some mhz
      | none => acceptSpeed p.max_speed
    slot := keepNonEmpty p.socket_designation
    l1_cache_kb := p.l1cache_handle.bind (get_cache_size_by_handle caches)
    l2_cache_kb := p.l2cache_handle.bind (get_cache_size_by_handle caches)
    l3_cache_kb := p.l3cache_handle.bind (get_cache_size_by_handle caches) }

/-- collect_with_smbios: one socket per processor record, with ascending
0-based socket indices in table order (an unreadable table gives no
records). -/
def collect_with_smbios (procs : List RawProcessor) (caches : List CacheRecord) :
    List CpuSocket :=
  (procs.enum.map (fun pi => buildCpuSocket caches pi.1 pi.2))

/-- The u32 total accumulation over the per-socket core counts, with 32-bit
wrap. -/
def accumCores (cpus : List CpuSocket) : Nat :=
  cpus.foldl (fun t c =>
    match c.num_cores with
    | some n => (t + n) % 2 ^ 32
    | none => t) 0

/-- The u32 total accumulation over the per-socket thread counts, with 32-bit
wrap. -/
def accumThreads (cpus : List CpuSocket) : Nat :=
  cpus.foldl (fun t c =>
    match c.num_threads with
    | some n => (t + n) % 2 ^ 32
    | none => t) 0

/-- collect_cpu_info: aggregate totals over the parsed sockets, each reported
absent when zero. -/
def collect_cpu_info (procs : List RawProcessor) (caches : List CacheRecord) : CpuInfo :=
  let cpus := collect_with_smbios procs caches
  let total_cores := accumCores cpus
  let total_threads := accumThreads cpus
  let socket_count := cpus.length
  { sockets := if socket_count > 0 then some socket_count else none
    cores := if total_cores > 0 then some total_cores else none
    threads := if total_threads > 0 then some total_threads else none
    cpus := cpus }

/-- Mathematical sum of the present per-socket core counts. -/
def coresSum (cpus : List CpuSocket) : Nat :=
  (cpus.map (fun c => c.num_cores.getD 0)).sum

/-- Mathematical sum of the present per-socket thread counts. -/
def threadsSum (cpus : List CpuSocket) : Nat :=
  (cpus.map (fun c => c.num_threads.getD 0)).sum

/-! ## Storage collector (src/hardware/collect_storage.rs)

The filesystem is an explicit read function from path strings to file
contents, symlink reads are a separate function returning the link target,
and each external tool is a function from its full argument vector to an
optional (exit-success, stdout) pair: none models a binary that could not be
spawned. -/

/-- Environment of the storage collector. -/
structure StorageEnv where
  blockNames : List String
  devNodeExists : String → Bool
  fsRead : String → Option String
  linkTarget : String → Option String
  smartctlRun : List String → Option (Bool × String)
  hdparmRun : List String → Option (Bool × String)
  nvmeRun : List String → Option (Bool × String)
  udevadmRun : List String → Option (Bool × String)

/-- read_to_string_trim: read, trim, and drop empty results. -/
def read_to_string_trim (env : StorageEnv) (p : String) : Option String :=
  ((env.fsRead p).map trimStr).bind (fun s => if strIsEmpty s then none else some s)

/-- read_to_u64: trim-read then u64 parse. -/
def read_to_u64 (env : StorageEnv) (p : String) : Option Nat :=
  (read_to_string_trim env p).bind parseU64

/-- The tool output of a successful run. -/
def toolStdout (o : Option (Bool × String)) : Option String :=
  match o with
  | some (true, out) => some out
  | _ => none

/-- Scan tool output lines for the first trimmed line whose text starts with
one of the given markers and whose second colon field is non-empty after
trimming. -/
def firstColonValue (markers : List String) (text : String) : Option String :=
  (linesOf text).foldl (fun acc line =>
    match acc with
    | some v => some v
    | none =>
      let line := trimStr line
      if markers.any (fun m => startsWithStr line m) then
        match (splitStrOn line ':').get? 1 with
        | some v =>
          let v := trimStr v
          if strIsEmpty v then none else some v
        | none => none
      else none) none

/-- get_firmware_from_smartctl: smartctl -i (plus -d nvme on NVMe buses),
scanning for a Firmware Version or Firmware Revision line. -/
def get_firmware_from_smartctl (env : StorageEnv) (dev_path : String)
    (bus_type : Option String) : Option String :=
  let args := ["-i"] ++ (if bus_type = some "nvme" then ["-d", "nvme"] else []) ++ [dev_path]
  (toolStdout (env.smartctlRun args)).bind
    (firstColonValue ["Firmware Version:", "Firmware Revision:"])

/-- Scan hdparm output lines for the first trimmed line containing one of the
markers, with a non-empty second colon field. -/
def firstColonValueContains (markers : List String) (text : String) : Option String :=
  (linesOf text).foldl (fun acc line =>
    match acc with
    | some v => some v
    | none =>
      let line := trimStr line
      if markers.any (fun m => containsStr line m) then
        match (splitStrOn line ':').get? 1 with
        | some v =>
          let v := trimStr v
          if strIsEmpty v then none else some v
        | none => none
      else none) none

/-- get_firmware_from_hdparm: hdparm -I, scanning for a firmware revision
line. -/
def get_firmware_from_hdparm (env : StorageEnv) (dev_path : String) : Option String :=
  (toolStdout (env.hdparmRun ["-I", dev_path])).bind
    (firstColonValueContains ["Firmware Revision:", "FW Revision:"])

/-- get_firmware_version: smartctl first, hdparm only for the scsi bus. -/
def get_firmware_version (env : StorageEnv) (dev_path : String)
    (bus_type : Option String) : Option String :=
  match get_firmware_from_smartctl env dev_path bus_type with
  | some v => some v
  | none =>
    if bus_type = some "scsi" then get_firmware_from_hdparm env dev_path
    else none

/-- get_serial_from_smartctl: smartctl -i scanning for a serial-number
line. -/
def get_serial_from_smartctl (env : StorageEnv) (dev_path : String)
    (bus_type : Option String) : Option String :=
  let args := ["-i"] ++ (if bus_type = some "nvme" then ["-d", "nvme"] else []) ++ [dev_path]
  (toolStdout (env.smartctlRun args)).bind
    (firstColonValue ["Serial Number:", "Serial number:"])

/-- get_serial_from_hdparm: hdparm -I scanning for a serial-number line. -/
def get_serial_from_hdparm (env : StorageEnv) (dev_path : String) : Option String :=
  (toolStdout (env.hdparmRun ["-I", dev_path])).bind
    (firstColonValueContains ["Serial Number:"])

/-- get_serial_number: smartctl first, hdparm only for the scsi bus. -/
def get_serial_number (env : StorageEnv) (dev_path : String)
    (bus_type : Option String) : Option String :=
  match get_serial_from_smartctl env dev_path bus_type with
  | some v => some v
  | none =>
    if bus_type = some "scsi" then get_serial_from_hdparm env dev_path
    else none

/-- find_dev_node_for_sys_device: walk the ancestors of the sysfs device path
for one whose parent is the block directory, and turn its name into a /dev
node.  On the component list this is the deepest component directly under a
block component. -/
def findDevNodeFromComponents : List String → Option String
  | [] => none
  | [_] => none
  | a :: b :: rest =>
    match findDevNodeFromComponents (b :: rest) with
    | some v => some v
    | none => if a = "block" then some ("/dev/" ++ b) else none

/-- find_dev_node_for_sys_device on a path string. -/
def find_dev_node_for_sys_device (device_path : String) : Option String :=
  findDevNodeFromComponents (splitStrOn device_path '/')

/-- read_udev_property: udevadm info --query=property --name dev, scanning
for a line of the form KEY=value. -/
def read_udev_property (env : StorageEnv) (dev_path key : String) : Option String :=
  (toolStdout (env.udevadmRun ["info", "--query=property", "--name", dev_path])).bind
    (fun text =>
      (linesOf text).foldl (fun acc line =>
        match acc with
        | some v => some v
        | none =>
          if startsWithStr line (key ++ "=") then
            some (trimStr (ofChars ((chars line).drop (chars (key ++ "=")).length)))
          else none) none)

/-- read_udev_property_from_sys_device: resolve the /dev node behind the
sysfs device path, then query udevadm. -/
def read_udev_property_from_sys_device (env : StorageEnv) (device_path key : String) :
    Option String :=
  (find_dev_node_for_sys_device device_path).bind
    (fun dev => read_udev_property env dev key)

/-- detect_bus_type: the subsystem symlink target name, with the udev ID_BUS
property as fallback. -/
def detect_bus_type (env : StorageEnv) (device_path : String) : Option String :=
  match (env.linkTarget (device_path ++ "/subsystem")).bind pathFileName with
  | some name => some name
  | none => read_udev_property_from_sys_device env device_path "ID_BUS"

/-- The verdict computation of smartctl_health: PASSED when the output
contains that marker, else FAILED when it contains that marker, else
absent. -/
def smartHealthVerdict (text : String) : Option String :=
  if containsStr text "PASSED" then some "PASSED"
  else if containsStr text "FAILED" then some "FAILED"
  else none

/-- smartctl_health: smartctl -H (plus -d nvme on NVMe); a successful run
yields a SmartInfo carrying the marker verdict. -/
def smartctl_health (env : StorageEnv) (dev_path : String) (bus_type : Option String) :
    Option SmartInfo :=
  let args := ["-H"] ++ (if bus_type = some "nvme" then ["-d", "nvme"] else []) ++ [dev_path]
  (toolStdout (env.smartctlRun args)).map (fun text => { health := smartHealthVerdict text })

/-- nvme_cli_smart: only for the nvme bus; a successful nvme smart-log run
yields a SmartInfo with no health verdict. -/
def nvme_cli_smart (env : StorageEnv) (dev_path : String) (bus_type : Option String) :
    Option SmartInfo :=
  if bus_type ≠ some "nvme" then none
  else (toolStdout (env.nvmeRun ["smart-log", dev_path])).map (fun _ => { health := none })

/-- collect_smart_info: smartctl first, nvme-cli as fallback. -/
def collect_smart_info (env : StorageEnv) (dev_path : String) (bus_type : Option String) :
    Option SmartInfo :=
  match smartctl_health env dev_path bus_type with
  | some smart => some smart
  | none => nvme_cli_smart env dev_path bus_type

/-- The NVMe controller-name resolution of collect_single_disk:
name.split of the letter n, first piece (the unwrap_or never fires since a
split always yields a first piece). -/
def nvmeControllerOf (name : String) : String :=
  ((splitStrOn name 'n').head?).getD name

/-- collect_single_disk: sysfs attributes, NVMe controller redirection, bus
detection, tool fallbacks for firmware and serial, SMART probe. -/
def collect_single_disk (env : StorageEnv) (name sys_path dev_path : String) : DiskInfo :=
  let device_path := pathJoin sys_path "device"
  let model := read_to_string_trim env (pathJoin device_path "model")
  let serial0 := read_to_string_trim env (pathJoin device_path "serial")
  let size_sectors := read_to_u64 env (pathJoin sys_path "size")
  let size_bytes := size_sectors.map (fun s => s * 512 % 2 ^ 64)
  let rotational := (read_to_u64 env (pathJoin sys_path "queue/rotational")).map (fun v => v == 1)
  let nvme := startsWithStr name "nvme"
  let bus_type : Option String :=
    if nvme then some "nvme" else detect_bus_type env device_path
  let nvme_ctrl_path := pathJoin "/sys/class/nvme" (nvmeControllerOf name)
  let firmware0 : Option String :=
    if nvme then read_to_string_trim env (pathJoin nvme_ctrl_path "firmware_rev") else none
  let serial1 : Option String :=
    if nvme then
      match serial0 with
      | some s => some s
      | none => read_to_string_trim env (pathJoin nvme_ctrl_path "serial")
    else serial0
  let firmware_version :=
    match firmware0 with
    | some v => some v
    | none => get_firmware_version env dev_path bus_type
  let serial :=
    match serial1 with
    | some s => some s
    | none => get_serial_number env dev_path bus_type
  let smart := collect_smart_info env dev_path bus_type
  { name := name
    dev_path := dev_path
    model := model
    serial := serial
    size_bytes := size_bytes
    rotational := rotational
    bus_type := bus_type
    firmware_version := firmware_version
    smart := smart }

/-- collect_disks: walk the block-device names, skipping synthetic name
patterns and devices without a device node. -/
def collect_disks (env : StorageEnv) : List DiskInfo :=
  env.blockNames.filterMap (fun name =>
    if startsWithStr name "loop" || startsWithStr name "ram" ||
       startsWithStr name "dm-" || startsWithStr name "zram" then none
    else
      let dev_path := "/dev/" ++ name
      if env.devNodeExists dev_path then
        some (collect_single_disk env name ("/sys/block/" ++ name) dev_path)
      else none)

/-! ## Network collector (src/hardware/collect_network.rs)

One NetIfEntry carries the per-interface raw sources: sysfs file contents,
symlink targets, ethtool outputs, and the device-directory existence flag.
The two serde_json boundaries are modelled at their parsed result: the bulk
ip -j addr query becomes the interface-name-to-address association list, the
per-interface primary-heuristic query becomes the flag saying whether that
interface reported a global-scope inet address, and ip -j route becomes the
parsed route list. -/

/-- PCI id database: vendors keyed by numeric id, each with a name and a
device table. -/
structure PciDb where
  vendors : List (Nat × String × List (Nat × String))

/-- Raw per-interface sources of the network collector. -/
structure NetIfEntry where
  name : String
  deviceExists : Bool
  addressRaw : Option String
  mtuRaw : Option String
  speedRaw : Option String
  ethtoolOut : Option (Bool × String)
  ethtoolInfoOut : Option (Bool × String)
  driverLink : Option String
  deviceLink : Option String
  vendorRaw : Option String
  deviceRaw : Option String
  masterLink : Option String
  hasGlobalInet : Bool

/-- Environment of the network collector. -/
structure NetEnv where
  entries : List NetIfEntry
  addrMap : List (String × List IpAddress)
  routes : List RouteInfo
  pciDb : Option PciDb

/-- Trim-read of a raw sysfs value, dropping empty results. -/
def netReadTrim (o : Option String) : Option String :=
  (o.map trimStr).bind (fun s => if strIsEmpty s then none else some s)

/-- u32 read of a raw sysfs value. -/
def netReadU32 (o : Option String) : Option Nat :=
  (netReadTrim o).bind parseU32

/-- The virtual-name patterns of is_virtual_interface: the excluded family
name starts plus the vlan substring. -/
def hasVirtualNamePattern (name : String) : Bool :=
  startsWithStr name "lo" || startsWithStr name "veth" || startsWithStr name "docker" ||
  startsWithStr name "br-" || startsWithStr name "virbr" || startsWithStr name "cni" ||
  startsWithStr name "flannel" || startsWithStr name "kube" || startsWithStr name "tun" ||
  startsWithStr name "tap" || startsWithStr name "vmnet" || containsStr name "vlan"

/-- is_virtual_interface: virtual name patterns first, then the bond/team
inclusion, then the PCI-device-directory test. -/
def is_virtual_interface (name : String) (deviceExists : Bool) : Bool :=
  if hasVirtualNamePattern name then true
  else if startsWithStr name "bond" || startsWithStr name "team" then false
  else !deviceExists

/-- ethtool_speed: scan for a Speed: line and take the leading digits of its
first whitespace token. -/
def ethtool_speed (out : Option (Bool × String)) : Option Nat :=
  (toolStdout out).bind (fun text =>
    (linesOf text).foldl (fun acc line =>
      match acc with
      | some v => some v
      | none =>
        let line := trimStr line
        if startsWithStr line "Speed:" then
          let rest := trimStr (ofChars ((chars line).drop (chars "Speed:").length))
          let part := (splitWhitespaceStr rest).headD ""
          let digits := ofChars ((chars part).takeWhile Char.isDigit)
          parseU32 digits
        else none) none)

/-- ethtool_firmware: remember the last firmware-version and plain version
lines (each kept when non-empty and not N/A), preferring the firmware one. -/
def ethtool_firmware (out : Option (Bool × String)) : Option String :=
  (toolStdout out).bind (fun text =>
    let step := fun (st : Option String × Option String) (line : String) =>
      let line := trimStr line
      if startsWithStr line "firmware-version:" then
        let v := trimStr (ofChars ((chars line).drop (chars "firmware-version:").length))
        if strIsEmpty v || v = "N/A" || v = "n/a" then st else (some v, st.2)
      else if startsWithStr line "version:" then
        let v := trimStr (ofChars ((chars line).drop (chars "version:").length))
        if strIsEmpty v || v = "N/A" || v = "n/a" then st else (st.1, some v)
      else st
    let st := (linesOf text).foldl step (none, none)
    match st.1 with
    | some v => some v
    | none => st.2)

/-- is_pci_address: at least 12 characters, exactly two colons, and a dot. -/
def is_pci_address (s : String) : Bool :=
  decide ((chars s).length ≥ 12) && (countChar s ':' == 2) && containsChar s '.'

/-- read_pci_address: walk the resolved device-symlink components for a
PCI-address-shaped token. -/
def read_pci_address (deviceLink : Option String) : Option String :=
  deviceLink.bind (fun target =>
    (splitStrOn target '/').foldl (fun acc comp =>
      match acc with
      | some v => some v
      | none => if is_pci_address comp then some comp else none) none)

/-- read_driver: basename of the driver symlink target. -/
def read_driver (driverLink : Option String) : Option String :=
  driverLink.bind pathFileName

/-- lookup_pci_ids: parse the hex ids, find the vendor, and fall back to an
Unknown Device label carrying the raw device-id text when only the device is
missing. -/
def lookup_pci_ids (db : Option PciDb) (vendor_hex device_hex : String) :
    Option (String × String) :=
  (parseHexU16 (stripHexMarkOr vendor_hex)).bind (fun vendor_id =>
    (parseHexU16 (stripHexMarkOr device_hex)).bind (fun device_id =>
      db.bind (fun db =>
        ((db.vendors.find? (fun v => v.1 == vendor_id)).map (fun v =>
          let vendor_name := v.2.1
          let device_name :=
            match (v.2.2.find? (fun d => d.1 == device_id)).map (fun d => d.2) with
            | some n => n
            | none => "Unknown Device [" ++ device_hex ++ "]"
          (vendor_name, device_name))))))

/-- read_vendor_device_info: only for entries with a device directory, via
the sysfs numeric ids and the PCI database. -/
def read_vendor_device_info (db : Option PciDb) (e : NetIfEntry) :
    Option String × Option String :=
  if !e.deviceExists then (none, none)
  else
    match netReadTrim e.vendorRaw, netReadTrim e.deviceRaw with
    | some vendor, some device =>
      match lookup_pci_ids db vendor device with
      | some names => (some names.1, some names.2)
      | none => (none, none)
    | _, _ => (none, none)

/-- detect_bond_info: bond/team masters are primary with their own group;
enslaved interfaces inherit the master name and are primary when the master
is bond/team; otherwise the global-inet heuristic decides primary. -/
def detect_bond_info (e : NetIfEntry) : Bool × Option String × Option String :=
  if startsWithStr e.name "bond" || startsWithStr e.name "team" then
    (true, some e.name, none)
  else
    match e.masterLink.bind pathFileName with
    | some master =>
      let is_primary := startsWithStr master "bond" || startsWithStr master "team"
      if is_primary then (true, some master, some master)
      else (e.hasGlobalInet, some master, some master)
    | none => (e.hasGlobalInet, none, none)

/-- One interface record of collect_network_info. -/
def buildNetInterface (env : NetEnv) (e : NetIfEntry) : NetInterface :=
  let bond := detect_bond_info e
  let vd := read_vendor_device_info env.pciDb e
  { name := e.name
    mac_address := netReadTrim e.addressRaw
    mtu := netReadU32 e.mtuRaw
    speed_mbps :=
      match netReadU32 e.speedRaw with
      | some v => some v
      | none => ethtool_speed e.ethtoolOut
    driver := read_driver e.driverLink
    firmware_version := ethtool_firmware e.ethtoolInfoOut
    vendor_name := vd.1
    device_name := vd.2
    pci_address := read_pci_address e.deviceLink
    addresses := ((env.addrMap.find? (fun q => q.1 == e.name)).map (fun q => q.2)).getD []
    is_primary := bond.1
    bond_group := bond.2.1
    bond_master := bond.2.2 }

/-- collect_network_info: keep the non-virtual interfaces, with the routes
collected independently. -/
def collect_network_info (env : NetEnv) : NetworkInfo :=
  { interfaces := env.entries.filterMap (fun e =>
      if is_virtual_interface e.name e.deviceExists then none
      else some (buildNetInterface env e))
    routes := env.routes }

/-! ## Power-supply collector (src/hardware/collect_power.rs)

Each of the five detection strategies reads its own tool output or sysfs
tree; the environment carries each tool run as an optional
(exit-success, stdout) pair, the per-PSU IPMI detail query as a function of
the sensor name, and the power-supply-class sysfs walk as a directory list
with raw attribute file contents. -/

/-- One /sys/class/power_supply entry with its raw attribute files. -/
structure SysfsPsuEntry where
  name : String
  statusRaw : Option String
  manufacturerRaw : Option String
  modelNameRaw : Option String
  serialNumberRaw : Option String

/-- Environment of the power-supply collector. -/
structure PowerEnv where
  dmidecodeOut : Option (Bool × String)
  ipmiSdrListOut : Option (Bool × String)
  ipmiSdrGetOut : String → Option (Bool × String)
  lshwOut : Option (Bool × String)
  apcaccessOut : Option (Bool × String)
  upscOut : Option (Bool × String)
  sysfsPsus : Option (List SysfsPsuEntry)

/-- The all-absent PowerSupplyInfo the parsers start from. -/
def blankPsu : PowerSupplyInfo :=
  { name := none, manufacturer := none, model := none, serial_number := none
    part_number := none, max_power_watts := none, efficiency_rating := none
    status := none, input_voltage := none, input_current := none
    output_voltage := none, output_current := none, temperature_c := none
    fan_speed_rpm := none }

/-- One key/value assignment of the dmidecode power-supply parser; values
that are empty or firmware placeholders are ignored. -/
def applyDmiPsuKeyValue (psu : PowerSupplyInfo) (key value : String) : PowerSupplyInfo :=
  if strIsEmpty value || value = "Not Specified" || value = "To Be Filled By O.E.M." then psu
  else
    if key = "Manufacturer" then { psu with manufacturer := some value }
    else if key = "Model" then { psu with model := some value }
    else if key = "Serial Number" then { psu with serial_number := some value }
    else if key = "Part Number" then { psu with part_number := some value }
    else if key = "Name" then { psu with name := some value }
    else if key = "Max Power Capacity" then
      match (splitWhitespaceStr value).head? with
      | some watts_str =>
        match parseU32 watts_str with
        | some watts => { psu with max_power_watts := some watts }
        | none => psu
      | none => psu
    else if key = "Status" then { psu with status := some value }
    else psu

/-- One line of the dmidecode power-supply parser, acting on the
(in_power_supply, current record, finished records) state. -/
def dmidecodePsuLine (st : Bool × PowerSupplyInfo × List PowerSupplyInfo) (line : String) :
    Bool × PowerSupplyInfo × List PowerSupplyInfo :=
  let line := trimStr line
  if containsStr line "Power Supply" && containsStr line "Handle" then
    if st.1 then (true, blankPsu, st.2.2 ++ [st.2.1])
    else (true, st.2.1, st.2.2)
  else if st.1 && containsChar line ':' then
    match splitOnceStr line ':' with
    | some kv => (st.1, applyDmiPsuKeyValue st.2.1 (trimStr kv.1) (trimStr kv.2), st.2.2)
    | none => st
  else st

/-- collect_power_supplies_dmidecode: segment the output on Power Supply
handle lines, keeping the trailing record, and yield nothing when no record
was found. -/
def collect_power_supplies_dmidecode (out : Option (Bool × String)) :
    Option (List PowerSupplyInfo) :=
  (toolStdout out).bind (fun text =>
    let st := (linesOf text).foldl dmidecodePsuLine (false, blankPsu, [])
    let power_supplies := if st.1 then st.2.2 ++ [st.2.1] else st.2.2
    if power_supplies.isEmpty then none else some power_supplies)

/-- get_ipmi_psu_details: parse the Sensor Reading lines of an ipmitool sdr
get run for a temperature (degrees C) and a voltage (Volts). -/
def get_ipmi_psu_details (out : Option (Bool × String)) (psu_name : String) :
    Option PowerSupplyInfo :=
  (toolStdout out).map (fun text =>
    let st := (linesOf text).foldl (fun (st : Option Int × Option String) line =>
      if containsStr line "Sensor Reading" then
        match (splitStrOn line ':').get? 1 with
        | some value_str =>
          let value_str := trimStr value_str
          let st1 :=
            if containsStr value_str "degrees C" then
              match (splitWhitespaceStr value_str).head? with
              | some temp_str =>
                match parseI32 temp_str with
                | some temp => (some temp, st.2)
                | none => st
              | none => st
            else st
          if containsStr value_str "Volts" then
            match (splitWhitespaceStr value_str).head? with
            | some volt_str =>
              match parseF32Token volt_str with
              | some volt => (st1.1, some volt)
              | none => st1
            | none => st1
          else st1
        | none => st
      else st) (none, none)
    { blankPsu with
        name := some psu_name
        output_voltage := st.2
        temperature_c := st.1 })

/-- One sensor row of the IPMI power-supply parser: rows naming power and
supply/psu with at least three pipe-separated fields become one PSU, enriched
with the per-sensor detail query. -/
def ipmiPsuOfLine (env : PowerEnv) (line : String) : Option PowerSupplyInfo :=
  if containsStr (lowerStr line) "power" &&
     (containsStr (lowerStr line) "supply" || containsStr (lowerStr line) "psu") then
    let parts := splitStrOn line '|'
    if parts.length ≥ 3 then
      let name := trimStr (parts.getD 0 "")
      let status := trimStr (parts.getD 2 "")
      let psu0 := { blankPsu with name := some name, status := some status }
      match get_ipmi_psu_details (env.ipmiSdrGetOut name) name with
      | some detailed =>
        let psu1 :=
          match detailed.temperature_c with
          | some temp => { psu0 with temperature_c := some temp }
          | none => psu0
        match detailed.output_voltage with
        | some voltage => some { psu1 with output_voltage := some voltage }
        | none => some psu1
      | none => some psu0
    else none
  else none

/-- collect_power_supplies_ipmi: scan the sdr list for power-supply rows. -/
def collect_power_supplies_ipmi (env : PowerEnv) : Option (List PowerSupplyInfo) :=
  (toolStdout env.ipmiSdrListOut).bind (fun text =>
    let power_supplies := (linesOf text).filterMap (ipmiPsuOfLine env)
    if power_supplies.isEmpty then none else some power_supplies)

/-- collect_power_supplies_lshw: one placeholder PSU when the power-class
listing mentions power at all. -/
def collect_power_supplies_lshw (out : Option (Bool × String)) :
    Option (List PowerSupplyInfo) :=
  (toolStdout out).bind (fun text =>
    if containsStr text "power" then
      some [{ blankPsu with name := some "System Power Supply", status := some "Present" }]
    else none)

/-- One key/value assignment of the apcupsd status parser. -/
def applyApcKeyValue (ups : PowerSupplyInfo) (key value : String) : PowerSupplyInfo :=
  if key = "MODEL" then { ups with model := some value }
  else if key = "SERIALNO" then { ups with serial_number := some value }
  else if key = "STATUS" then { ups with status := some value }
  else if key = "LINEV" then
    match (splitWhitespaceStr value).head? with
    | some voltage_str =>
      match parseF32Token voltage_str with
      | some voltage => { ups with input_voltage := some voltage }
      | none => ups
    | none => ups
  else if key = "OUTPUTV" then
    match (splitWhitespaceStr value).head? with
    | some voltage_str =>
      match parseF32Token voltage_str with
      | some voltage => { ups with output_voltage := some voltage }
      | none => ups
    | none => ups
  else if key = "ITEMP" then
    match (splitWhitespaceStr value).head? with
    | some temp_str =>
      match parseI32 temp_str with
      | some temp => { ups with temperature_c := some temp }
      | none => ups
    | none => ups
  else ups

/-- collect_apcupsd_info: key/value parse of apcaccess status, starting from
a UPS record branded APC. -/
def collect_apcupsd_info (out : Option (Bool × String)) : Option PowerSupplyInfo :=
  (toolStdout out).map (fun text =>
    (linesOf text).foldl (fun ups line =>
      match splitOnceStr line ':' with
      | some kv => applyApcKeyValue ups (trimStr kv.1) (trimStr kv.2)
      | none => ups)
      { blankPsu with name := some "UPS", manufacturer := some "APC" })

/-- One key/value assignment of the NUT upsc parser. -/
def applyNutKeyValue (ups : PowerSupplyInfo) (key value : String) : PowerSupplyInfo :=
  if key = "device.mfr" then { ups with manufacturer := some value }
  else if key = "device.model" then { ups with model := some value }
  else if key = "device.serial" then { ups with serial_number := some value }
  else if key = "ups.status" then { ups with status := some value }
  else if key = "input.voltage" then
    match parseF32Token value with
    | some voltage => { ups with input_voltage := some voltage }
    | none => ups
  else if key = "output.voltage" then
    match parseF32Token value with
    | some voltage => { ups with output_voltage := some voltage }
    | none => ups
  else if key = "ups.temperature" then
    match parseI32 value with
    | some temp => { ups with temperature_c := some temp }
    | none => ups
  else ups

/-- collect_nut_info: key/value parse of upsc ups. -/
def collect_nut_info (out : Option (Bool × String)) : Option PowerSupplyInfo :=
  (toolStdout out).map (fun text =>
    (linesOf text).foldl (fun ups line =>
      match splitOnceStr line ':' with
      | some kv => applyNutKeyValue ups (trimStr kv.1) (trimStr kv.2)
      | none => ups)
      { blankPsu with name := some "UPS" })

/-- collect_ups_information: apcupsd first, NUT second, each contributing a
single UPS record. -/
def collect_ups_information (env : PowerEnv) : Option (List PowerSupplyInfo) :=
  match collect_apcupsd_info env.apcaccessOut with
  | some ups => some [ups]
  | none =>
    match collect_nut_info env.upscOut with
    | some ups => some [ups]
    | none => none

/-- collect_power_supplies_sysfs: walk the power-supply class, skipping
battery and AC-adapter entries; attribute reads are kept trimmed whenever the
file exists. -/
def collect_power_supplies_sysfs (entries : Option (List SysfsPsuEntry)) :
    Option (List PowerSupplyInfo) :=
  entries.bind (fun entries =>
    let power_supplies := entries.filterMap (fun e =>
      if startsWithStr e.name "BAT" || startsWithStr e.name "ADP" then none
      else some { blankPsu with
        name := some e.name
        status := e.statusRaw.map trimStr
        manufacturer := e.manufacturerRaw.map trimStr
        model := e.modelNameRaw.map trimStr
        serial_number := e.serialNumberRaw.map trimStr })
    if power_supplies.isEmpty then none else some power_supplies)

/-- collect_power_supplies: run the five strategies in their fixed order and
append whatever each yields. -/
def collect_power_supplies (env : PowerEnv) : List PowerSupplyInfo :=
  ((collect_power_supplies_dmidecode env.dmidecodeOut).getD []) ++
  ((collect_power_supplies_ipmi env).getD []) ++
  ((collect_power_supplies_lshw env.lshwOut).getD []) ++
  ((collect_ups_information env).getD []) ++
  ((collect_power_supplies_sysfs env.sysfsPsus).getD [])

/-! ## Node / BMC collector (src/hardware/collect_node.rs)

The firmware table is the list of its typed structures in table order; the
BMC environment carries the device-file existence test, the network interface
names, and the management tool runs. -/

/-- The firmware structures collect_dmi_info matches on. -/
inductive DmiStruct where
  | system (product_name manufacturer serial_number sku_number : Option String)
  | chassis (manufacturer serial_number : Option String)
  | baseboard (manufacturer product version serial_number : Option String)
  | bios (vendor version release_date : Option String)
  | other
deriving Repr, DecidableEq

/-- Environment of the BMC detection chain. -/
structure BmcEnv where
  pathExists : String → Bool
  netIfaceNames : List String
  netstatOut : Option (Bool × String)
  whichRunOk : Bool
  mcInfoOut : Option (Bool × String)
  lanPrintOut : Option (Bool × String)
  curlOut : String → Option (Bool × String)

/-- Environment of the node collector. -/
structure NodeEnv where
  hostnameRaw : Option String
  arch : String
  dmi : List DmiStruct
  bmc : BmcEnv

/-- The system-information extraction filter: non-empty and not Not
Specified. -/
def sysKeep (o : Option String) : Option String :=
  o.bind (fun s =>
    if strIsEmpty s then none
    else if s = "Not Specified" then none
    else some s)

/-- The system serial-number filter additionally drops Not Available. -/
def sysSerialKeep (o : Option String) : Option String :=
  o.bind (fun s =>
    if strIsEmpty s then none
    else if s = "Not Specified" then none
    else if s = "Not Available" then none
    else some s)

/-- The chassis filter drops all three firmware placeholders. -/
def chassisKeep (o : Option String) : Option String :=
  o.bind (fun s =>
    if strIsEmpty s then none
    else if s = "Not Specified" then none
    else if s = "To Be Filled By O.E.M." then none
    else if s = "Default string" then none
    else some s)

/-- The baseboard filter drops Not Specified and the O.E.M. placeholder. -/
def baseboardKeep (o : Option String) : Option String :=
  o.bind (fun s =>
    if strIsEmpty s then none
    else if s = "Not Specified" then none
    else if s = "To Be Filled By O.E.M." then none
    else some s)

/-- Intermediate state of the collect_dmi_info structure walk. -/
structure DmiInfoAcc where
  product_name : Option String
  manufacturer : Option String
  serial_number : Option String
  sku_number : Option String
  chassis_manufacturer : Option String
  chassis_serial_number : Option String
  motherboard : Option MotherboardInfo
  bios : Option BiosInfo
deriving Repr, DecidableEq

/-- One structure of the collect_dmi_info walk; later records of the same
kind overwrite the system and chassis fields, while motherboard and BIOS
records only replace the stored value when at least one field survived
filtering. -/
def applyDmiStruct (acc : DmiInfoAcc) : DmiStruct → DmiInfoAcc
  | DmiStruct.system product_name manufacturer serial_number sku_number =>
    { acc with
        product_name := sysKeep product_name
        manufacturer := sysKeep manufacturer
        serial_number := sysSerialKeep serial_number
        sku_number := sysKeep sku_number }
  | DmiStruct.chassis manufacturer serial_number =>
    { acc with
        chassis_manufacturer := chassisKeep manufacturer
        chassis_serial_number := chassisKeep serial_number }
  | DmiStruct.baseboard manufacturer product version serial_number =>
    let manufacturer := baseboardKeep manufacturer
    let product_name := baseboardKeep product
    let version := baseboardKeep version
    let serial_number := baseboardKeep serial_number
    if manufacturer.isSome || product_name.isSome || version.isSome || serial_number.isSome then
      { acc with motherboard := some (MotherboardInfo.mk manufacturer product_name
          version serial_number) }
    else acc
  | DmiStruct.bios vendor version release_date =>
    let vendor := keepNonEmpty vendor
    let version := keepNonEmpty version
    let release_date := keepNonEmpty release_date
    if vendor.isSome || version.isSome || release_date.isSome then
      { acc with bios := some (BiosInfo.mk vendor version release_date) }
    else acc
  | DmiStruct.other => acc

/-- collect_dmi_info over the firmware structures (an unreadable table gives
the all-absent result). -/
def collect_dmi_info (dmi : List DmiStruct) : DmiInfoAcc :=
  dmi.foldl applyDmiStruct
    { product_name := none, manufacturer := none, serial_number := none
      sku_number := none, chassis_manufacturer := none
      chassis_serial_number := none, motherboard := none, bios := none }

/-- The all-absent BmcInfo. -/
def emptyBmcInfo : BmcInfo :=
  { ip_address := none, mac_address := none, firmware_version := none, release_date := none }

/-- detect_ipmi_device: an empty success for the first well-known IPMI device
file that exists. -/
def detect_ipmi_device (env : BmcEnv) : Option BmcInfo :=
  if env.pathExists "/dev/ipmi0" || env.pathExists "/dev/ipmidev/0" ||
     env.pathExists "/dev/ipmi/0" then some emptyBmcInfo
  else none

/-- detect_smbios_bmc is disabled in the source and always yields nothing. -/
def detect_smbios_bmc : Option BmcInfo := none

/-- The management-name patterns of detect_network_management. -/
def mgmtPatterns : List String := ["bmc", "ipmi", "ilo", "idrac", "rac"]

/-- detect_network_management: an empty success when an interface name
matches a management pattern, else when the listening-socket table shows
port 623 (the loop tests ports 623, 443, 80 but its success condition also
requires the port to be 623, so only 623 can fire). -/
def detect_network_management (env : BmcEnv) : Option BmcInfo :=
  match env.netIfaceNames.find? (fun n =>
      mgmtPatterns.any (fun p => containsStr (lowerStr n) p)) with
  | some _ => some emptyBmcInfo
  | none =>
    match toolStdout env.netstatOut with
    | some out => if containsStr out ":623" then some emptyBmcInfo else none
    | none => none

/-- The MAC-address reassembly of get_ipmi_network_info: everything after the
first colon, re-split once more so the first octet can be trimmed, falling
back to the plain second colon field. -/
def ipmiMacOfLine (line : String) : String :=
  match splitOnceStr line ':' with
  | some fr =>
    (match splitOnceStr fr.2 ':' with
     | some octets => trimStr octets.1 ++ ":" ++ octets.2
     | none => trimStr (((splitStrOn line ':').get? 1).getD ""))
  | none => trimStr (((splitStrOn line ':').get? 1).getD "")

/-- get_ipmi_network_info: parse ipmitool lan print 1 for the IP address
(ignoring Source lines and the zero address) and the MAC address (ignoring
the zero MAC). -/
def get_ipmi_network_info (out : Option (Bool × String)) :
    Option String × Option String :=
  match toolStdout out with
  | none => (none, none)
  | some text =>
    (linesOf text).foldl (fun (st : Option String × Option String) line =>
      if containsStr line "IP Address" && !containsStr line "Source" then
        match (splitStrOn line ':').get? 1 with
        | some ip =>
          let ip_str := trimStr ip
          if ip_str ≠ "0.0.0.0" && !strIsEmpty ip_str then (some ip_str, st.2) else st
        | none => st
      else if containsStr line "MAC Address" then
        match (splitStrOn line ':').get? 1 with
        | some _ =>
          let mac_str := ipmiMacOfLine line
          if !strIsEmpty mac_str && mac_str ≠ "00:00:00:00:00:00" then (st.1, some mac_str)
          else st
        | none => st
      else st) (none, none)

/-- collect_ipmi_bmc: requires the which probe itself to have run; a
successful mc info run always yields a record, with firmware revision and
build date taken from the last matching lines and network data from lan
print. -/
def collect_ipmi_bmc (env : BmcEnv) : Option BmcInfo :=
  if !env.whichRunOk then none
  else
    match toolStdout env.mcInfoOut with
    | none => none
    | some text =>
      let st := (linesOf text).foldl (fun (st : Option String × Option String) line =>
        let st1 :=
          if containsStr line "Firmware Revision" then
            match (splitStrOn line ':').get? 1 with
            | some version => (some (trimStr version), st.2)
            | none => st
          else st
        if containsStr line "Build Time" || containsStr line "Build Date" ||
           containsStr line "Firmware Build" then
          match (splitStrOn line ':').get? 1 with
          | some date => (st1.1, some (trimStr date))
          | none => st1
        else st1) (none, none)
      let net := get_ipmi_network_info env.lanPrintOut
      some { ip_address := net.1, mac_address := net.2
             firmware_version := st.1, release_date := st.2 }

/-- The Redfish indicator paths probed by collect_redfish_bmc. -/
def redfishIndicators : List String :=
  ["/redfish/v1/", "/redfish/v1/Systems", "/redfish/v1/Managers"]

/-- collect_redfish_bmc: probe localhost for each indicator path; a
successful response mentioning odata or redfish markers yields a localhost
record. -/
def collect_redfish_bmc (env : BmcEnv) : Option BmcInfo :=
  redfishIndicators.foldl (fun acc indicator =>
    match acc with
    | some bmc => some bmc
    | none =>
      match toolStdout (env.curlOut ("https://localhost" ++ indicator)) with
      | some response =>
        if containsStr response "@odata" || containsStr response "redfish" then
          some { ip_address := some "localhost", mac_address := none
                 firmware_version := none, release_date := none }
        else none
      | none => none) none

/-- collect_bmc_from_dmi: the strict priority chain, ending in the all-absent
record when every strategy fails. -/
def collect_bmc_from_dmi (env : BmcEnv) : BmcInfo :=
  match detect_ipmi_device env with
  | some bmc => bmc
  | none =>
    match detect_smbios_bmc with
    | some bmc => bmc
    | none =>
      match detect_network_management env with
      | some bmc => bmc
      | none =>
        match collect_ipmi_bmc env with
        | some bmc => bmc
        | none =>
          match collect_redfish_bmc env with
          | some bmc => bmc
          | none => emptyBmcInfo

/-- get_hostname: the kernel hostname file, defaulting to unknown, trimmed. -/
def get_hostname (hostnameRaw : Option String) : String :=
  trimStr (hostnameRaw.getD "unknown")

/-- collect_node_info: hostname, build architecture, firmware-table fields,
and the BMC record, which is always wrapped in Some. -/
def collect_node_info (env : NodeEnv) : NodeInfo :=
  let dmi := collect_dmi_info env.dmi
  { hostname := get_hostname env.hostnameRaw
    architecture := env.arch
    product_name := dmi.product_name
    manufacturer := dmi.manufacturer
    serial_number := dmi.serial_number
    chassis_manufacturer := dmi.chassis_manufacturer
    chassis_serial_number := dmi.chassis_serial_number
    motherboard := dmi.motherboard
    bios := dmi.bios
    bmc := some (collect_bmc_from_dmi env.bmc) }

/-! ## GPU collector (src/hardware/collect_gpus.rs) -/

/-- One /sys/bus/pci/devices entry with its raw attribute files. -/
structure PciDevEntry where
  dirName : String
  classRaw : Option String
  vendorRaw : Option String
  deviceRaw : Option String

/-- Environment of the GPU collector. -/
structure GpuEnv where
  pciDevs : List PciDevEntry
  pciDb : Option PciDb
  nvidiaSmiOut : Option (Bool × String)
  rocmSmiOut : Option (Bool × String)

/-- read_pci_class: the trimmed class file content. -/
def read_pci_class (classRaw : Option String) : Option String :=
  classRaw.map trimStr

/-- is_gpu_class: VGA and 3D controller classes, plus display controllers. -/
def is_gpu_class (class_id : String) : Bool :=
  startsWithStr class_id "0x0300" || startsWithStr class_id "0x0380"

/-- read_hex_file: trimmed content, optional 0x mark, u16 hex parse. -/
def read_hex_file (raw : Option String) : Option Nat :=
  raw.bind (fun content => parseHexU16 (stripHexMarkOr (trimStr content)))

/-- lookup_pci_names: vendor required, device falling back to an Unknown
Device label with the zero-padded hex id. -/
def lookup_pci_names (db : Option PciDb) (vendor_id device_id : Nat) :
    Option (String × String) :=
  db.bind (fun db =>
    (db.vendors.find? (fun v => v.1 == vendor_id)).map (fun v =>
      let device_name :=
        match (v.2.2.find? (fun d => d.1 == device_id)).map (fun d => d.2) with
        | some n => n
        | none => "Unknown Device [0x" ++ hex4 device_id ++ "]"
      (v.2.1, device_name)))

/-- create_gpu_info: PCI address from the directory name, numeric ids from
sysfs, names from the database. -/
def create_gpu_info (db : Option PciDb) (e : PciDevEntry) : Option GpuInfo :=
  (read_hex_file e.vendorRaw).bind (fun vendor_id =>
    (read_hex_file e.deviceRaw).bind (fun device_id =>
      (lookup_pci_names db vendor_id device_id).map (fun names =>
        { vendor := some names.1, model := some names.2
          pci_address := some e.dirName, vram_mb := none
          driver_version := none, uuid := none })))

/-- gpu_models_match: some whitespace token of the tool name, longer than
three characters, occurs inside some token of the PCI-resolved name (both
lower-cased). -/
def gpu_models_match (nvidia_name pci_name : String) : Bool :=
  let nvidia_parts := splitWhitespaceStr (lowerStr nvidia_name)
  let pci_parts := splitWhitespaceStr (lowerStr pci_name)
  nvidia_parts.any (fun np =>
    pci_parts.any (fun pp =>
      decide ((chars np).length > 3) && containsStr pp np))

/-- enhance_nvidia_gpu: scan the nvidia-smi CSV rows for the first
fuzzy-matching row and take VRAM (when it parses), driver version and
UUID from it. -/
def enhance_nvidia_gpu (out : Option (Bool × String)) (gpu : GpuInfo) : GpuInfo :=
  match toolStdout out with
  | none => gpu
  | some text =>
    let row := (linesOf text).foldl (fun acc line =>
      match acc with
      | some r => some r
      | none =>
        let parts := (splitStrOn line ',').map trimStr
        if parts.length ≥ 4 then
          match gpu.model with
          | some model =>
            if gpu_models_match (parts.getD 0 "") model then some parts else none
          | none => none
        else none) none
    match row with
    | some parts =>
      let gpu :=
        match parseU32 (parts.getD 1 "") with
        | some vram => { gpu with vram_mb := some vram }
        | none => gpu
      { gpu with driver_version := some (parts.getD 2 ""), uuid := some (parts.getD 3 "") }
    | none => gpu

/-- extract_number_from_line: the first whitespace token made only of
digits. -/
def extract_number_from_line (line : String) : Option String :=
  (splitWhitespaceStr line).find? (fun s => (chars s).all Char.isDigit)

/-- enhance_amd_gpu: every memory line of the rocm-smi output overwrites the
VRAM with its first all-digit token when that parses. -/
def enhance_amd_gpu (out : Option (Bool × String)) (gpu : GpuInfo) : GpuInfo :=
  match toolStdout out with
  | none => gpu
  | some text =>
    (linesOf text).foldl (fun gpu line =>
      if containsStr line "Memory" && containsStr line "MB" then
        match extract_number_from_line line with
        | some mem_str =>
          match parseU32 mem_str with
          | some vram => { gpu with vram_mb := some vram }
          | none => gpu
        | none => gpu
      else gpu) gpu

/-- enhance_gpus_with_tools: vendor-dispatched enrichment of each GPU. -/
def enhance_gpus_with_tools (env : GpuEnv) (gpus : List GpuInfo) : List GpuInfo :=
  gpus.map (fun gpu =>
    match gpu.vendor with
    | some vendor =>
      if containsStr (lowerStr vendor) "nvidia" then enhance_nvidia_gpu env.nvidiaSmiOut gpu
      else if containsStr (lowerStr vendor) "amd" || containsStr (lowerStr vendor) "ati" then
        enhance_amd_gpu env.rocmSmiOut gpu
      else gpu
    | none => gpu)

/-- collect_gpus: keep the PCI devices whose class file marks a display
device and that fully resolve, then enrich via the vendor tools. -/
def collect_gpus (env : GpuEnv) : List GpuInfo :=
  let gpus := env.pciDevs.filterMap (fun e =>
    match read_pci_class e.classRaw with
    | some class_id =>
      if is_gpu_class class_id then create_gpu_info env.pciDb e else none
    | none => none)
  enhance_gpus_with_tools env gpus

/-! ## Inventory aggregator (src/hardware/collector.rs) -/

/-- The whole collection environment: one component per data source. -/
structure Env where
  memoryDevices : List RawMemoryDevice
  processors : List RawProcessor
  caches : List CacheRecord
  storage : StorageEnv
  network : NetEnv
  power : PowerEnv
  node : NodeEnv
  gpu : GpuEnv

/-- The agent version constant of collector.rs. -/
def AGENT_VERSION : String := "1.0.0"

/-- collect_full_inventory: run every category collector and assemble the
report. -/
def collect_full_inventory (env : Env) : Inventory :=
  { agent_version := AGENT_VERSION
    node := collect_node_info env.node
    cpu := collect_cpu_info env.processors env.caches
    memory := collect_memory_info env.memoryDevices
    disks := collect_disks env.storage
    network := collect_network_info env.network
    gpus := collect_gpus env.gpu
    power_supplies := collect_power_supplies env.power }

/-- The fully degraded environment: no firmware table, no sysfs trees, every
external tool missing. -/
def emptyEnv : Env :=
  { memoryDevices := []
    processors := []
    caches := []
    storage :=
      { blockNames := [], devNodeExists := fun _ => false, fsRead := fun _ => none
        linkTarget := fun _ => none, smartctlRun := fun _ => none
        hdparmRun := fun _ => none, nvmeRun := fun _ => none, udevadmRun := fun _ => none }
    network := { entries := [], addrMap := [], routes := [], pciDb := none }
    power :=
      { dmidecodeOut := none, ipmiSdrListOut := none, ipmiSdrGetOut := fun _ => none
        lshwOut := none, apcaccessOut := none, upscOut := none, sysfsPsus := none }
    node :=
      { hostnameRaw := none, arch := "x86_64", dmi := []
        bmc :=
          { pathExists := fun _ => false, netIfaceNames := [], netstatOut := none
            whichRunOk := false, mcInfoOut := none, lanPrintOut := none
            curlOut := fun _ => none } }
    gpu := { pciDevs := [], pciDb := none, nvidiaSmiOut := none, rocmSmiOut := none } }

/-! ## Helper lemmas -/

/-- Unfolding of dimmSizesSum over a cons. -/
theorem dimmSizesSum_cons (d : DimmInfo) (l : List DimmInfo) :
    dimmSizesSum (d :: l) = d.size_bytes.getD 0 + dimmSizesSum l := by
  simp [dimmSizesSum]

/-- The wrapped u64 total accumulation agrees with the mathematical sum while
the sum stays below 2 ^ 64. -/
theorem accum_total_eq_sum : ∀ (l : List DimmInfo) (t : Nat),
    t + dimmSizesSum l < 2 ^ 64 →
    l.foldl (fun t d =>
      match d.size_bytes with
      | some size => (t + size) % 2 ^ 64
      | none => t) t = t + dimmSizesSum l := by
  intro l
  induction l with
  | nil => intro t _; simp [dimmSizesSum]
  | cons d l ih =>
    intro t h
    rw [dimmSizesSum_cons] at h ⊢
    rw [List.foldl_cons]
    cases hd : d.size_bytes with
    | none =>
      rw [hd] at h
      simp only [Option.getD_none, Nat.zero_add] at h ⊢
      exact ih t h
    | some size =>
      rw [hd] at h
      simp only [Option.getD_some] at h ⊢
      have hlt : t + size < 2 ^ 64 := by omega
      show List.foldl (fun t d =>
        match d.size_bytes with
        | some size => (t + size) % 2 ^ 64
        | none => t) ((t + size) % 2 ^ 64) l = t + (size + dimmSizesSum l)
      rw [Nat.mod_eq_of_lt hlt, ih (t + size) (by omega)]
      omega

/-- A DIMM emitted by processMemoryDevice always carries a size. -/
theorem processMemoryDevice_size_isSome {r : RawMemoryDevice} {d : DimmInfo}
    (h : processMemoryDevice r = some d) : d.size_bytes.isSome = true := by
  cases hs : r.size with
  | none =>
    simp only [processMemoryDevice, hs] at h
    exact Option.noConfusion h
  | some si =>
    cases si with
    | SeeExtendedSize =>
      simp only [processMemoryDevice, hs, dimmOfSeeExtended] at h
      split at h
      next hcond => injection h with h2; rw [← h2]; exact hcond
      next => simp at h
    | Kilobytes kb =>
      simp only [processMemoryDevice, hs] at h
      split at h
      next hkb =>
        injection h with h2
        rw [← h2]
        have hpos : 0 < sizeFromSizeInfo (MemSize.Kilobytes kb) r.extended_size := by
          simp only [sizeFromSizeInfo]
          exact Nat.mul_pos hkb (by norm_num)
        simp [dimmOfKilobytes, hpos]
      next => simp at h
    | Megabytes mb =>
      simp only [processMemoryDevice, hs] at h
      split at h
      next => injection h with h2; rw [← h2]; simp [dimmOfMegabytes]
      next => simp at h
    | Unresolved =>
      simp only [processMemoryDevice, hs] at h
      exact Option.noConfusion h

/-- The string fields of a DIMM emitted by processMemoryDevice are the shared
filters applied to the raw accessor values, regardless of the size branch
taken. -/
theorem processMemoryDevice_strings {r : RawMemoryDevice} {d : DimmInfo}
    (h : processMemoryDevice r = some d) :
    d.slot = keepNonEmpty r.device_locator ∧
    d.manufacturer = keepNotSpecified r.manufacturer ∧
    d.serial_number = keepNotSpecified r.serial_number ∧
    d.part_number = keepNotSpecified r.part_number := by
  cases hs : r.size with
  | none =>
    simp only [processMemoryDevice, hs] at h
    exact Option.noConfusion h
  | some si =>
    cases si with
    | SeeExtendedSize =>
      simp only [processMemoryDevice, hs, dimmOfSeeExtended] at h
      split at h
      next => injection h with h2; rw [← h2]; exact ⟨rfl, rfl, rfl, rfl⟩
      next => simp at h
    | Kilobytes kb =>
      simp only [processMemoryDevice, hs] at h
      split at h
      next => injection h with h2; rw [← h2]; exact ⟨rfl, rfl, rfl, rfl⟩
      next => simp at h
    | Megabytes mb =>
      simp only [processMemoryDevice, hs] at h
      split at h
      next => injection h with h2; rw [← h2]; exact ⟨rfl, rfl, rfl, rfl⟩
      next => simp at h
    | Unresolved =>
      simp only [processMemoryDevice, hs] at h
      exact Option.noConfusion h

/-- Unfolding of coresSum over a cons. -/
theorem coresSum_cons (c : CpuSocket) (l : List CpuSocket) :
    coresSum (c :: l) = c.num_cores.getD 0 + coresSum l := by
  simp [coresSum]

/-- Unfolding of threadsSum over a cons. -/
theorem threadsSum_cons (c : CpuSocket) (l : List CpuSocket) :
    threadsSum (c :: l) = c.num_threads.getD 0 + threadsSum l := by
  simp [threadsSum]

/-- The wrapped u32 core-count accumulation agrees with the mathematical sum
while the sum stays below 2 ^ 32. -/
theorem accum_cores_eq_sum : ∀ (l : List CpuSocket) (t : Nat),
    t + coresSum l < 2 ^ 32 →
    l.foldl (fun t c =>
      match c.num_cores with
      | some n => (t + n) % 2 ^ 32
      | none => t) t = t + coresSum l := by
  intro l
  induction l with
  | nil => intro t _; simp [coresSum]
  | cons c l ih =>
    intro t h
    rw [coresSum_cons] at h ⊢
    rw [List.foldl_cons]
    cases hd : c.num_cores with
    | none =>
      rw [hd] at h
      simp only [Option.getD_none, Nat.zero_add] at h ⊢
      exact ih t h
    | some n =>
      rw [hd] at h
      simp only [Option.getD_some] at h ⊢
      have hlt : t + n < 2 ^ 32 := by omega
      show List.foldl (fun t c =>
        match c.num_cores with
        | some n => (t + n) % 2 ^ 32
        | none => t) ((t + n) % 2 ^ 32) l = t + (n + coresSum l)
      rw [Nat.mod_eq_of_lt hlt, ih (t + n) (by omega)]
      omega

/-- The wrapped u32 thread-count accumulation agrees with the mathematical
sum while the sum stays below 2 ^ 32. -/
theorem accum_threads_eq_sum : ∀ (l : List CpuSocket) (t : Nat),
    t + threadsSum l < 2 ^ 32 →
    l.foldl (fun t c =>
      match c.num_threads with
      | some n => (t + n) % 2 ^ 32
      | none => t) t = t + threadsSum l := by
  intro l
  induction l with
  | nil => intro t _; simp [threadsSum]
  | cons c l ih =>
    intro t h
    rw [threadsSum_cons] at h ⊢
    rw [List.foldl_cons]
    cases hd : c.num_threads with
    | none =>
      rw [hd] at h
      simp only [Option.getD_none, Nat.zero_add] at h ⊢
      exact ih t h
    | some n =>
      rw [hd] at h
      simp only [Option.getD_some] at h ⊢
      have hlt : t + n < 2 ^ 32 := by omega
      show List.foldl (fun t c =>
        match c.num_threads with
        | some n => (t + n) % 2 ^ 32
        | none => t) ((t + n) % 2 ^ 32) l = t + (n + threadsSum l)
      rw [Nat.mod_eq_of_lt hlt, ih (t + n) (by omega)]
      omega

/-- The sockets built by collect_with_smbios carry the ascending 0-based
indices in table order. -/
theorem collect_with_smbios_socket_indices (procs : List RawProcessor)
    (caches : List CacheRecord) :
    (collect_with_smbios procs caches).map CpuSocket.socket = List.range procs.length := by
  simp [collect_with_smbios, List.map_map]
  show procs.enum.map Prod.fst = List.range procs.length
  exact List.enum_map_fst procs

/-- collect_with_smbios builds one socket per processor record. -/
theorem collect_with_smbios_length (procs : List RawProcessor)
    (caches : List CacheRecord) :
    (collect_with_smbios procs caches).length = procs.length := by
  simp [collect_with_smbios]

/-! ## Claim theorems -/

/-- C3: every DIMM emitted by the memory collector has a present size, and
the reported total, when the mathematical sum of the emitted sizes fits in
the u64 accumulator, is exactly that sum — reported as absent, not zero, when
the sum is zero. -/
theorem memory_total_invariant (rs : List RawMemoryDevice) :
    (∀ d ∈ (collect_memory_info rs).dimms, d.size_bytes.isSome) ∧
    (dimmSizesSum (collect_memory_with_smbios rs) < 2 ^ 64 →
      (collect_memory_info rs).total_bytes =
        if dimmSizesSum (collect_memory_with_smbios rs) = 0 then none
        else some (dimmSizesSum (collect_memory_with_smbios rs))) := by
  constructor
  · intro d hd
    simp only [collect_memory_info] at hd
    obtain ⟨r, _, hr⟩ := List.mem_filterMap.mp hd
    exact processMemoryDevice_size_isSome hr
  · intro hsum
    simp only [collect_memory_info, accumTotalBytes]
    rw [accum_total_eq_sum (collect_memory_with_smbios rs) 0 (by omega)]
    simp only [Nat.zero_add]
    by_cases h0 : dimmSizesSum (collect_memory_with_smbios rs) = 0
    · simp [h0]
    · simp [h0, Nat.pos_of_ne_zero h0]

/-- Concrete memory-device records exercising the three size encodings, used
to instantiate the C3 and C4 theorems. -/
def memDevKb : RawMemoryDevice :=
  { size := some (MemSize.Kilobytes 512), extended_size := none
    device_locator := some "DIMM 0", mem_type_value_dbg := none
    mem_type_full_dbg := some "Ddr4", configured_speed := some (MemSpeed.MTs 2933)
    max_speed := some (MemSpeed.MTs 3200), manufacturer := some "Micron"
    serial_number := some "12345678", part_number := some "MTA18ASF2G72PDZ" }

/-- A megabyte-encoded record holding the 0x7FFF sentinel with an extended
size. -/
def memDevSentinel : RawMemoryDevice :=
  { memDevKb with size := some (MemSize.Megabytes 0x7FFF)
                  extended_size := some (MemSizeExtended.Megabytes 65536) }

/-- A megabyte-encoded record holding the 0x7FFF sentinel without an extended
size. -/
def memDevSentinelBare : RawMemoryDevice :=
  { memDevKb with size := some (MemSize.Megabytes 0x7FFF), extended_size := none }

/-- C3 witness: the invariant instantiated on a concrete three-record table
whose sum is below 2 ^ 64. -/
theorem memory_total_invariant_witness :
    (collect_memory_info [memDevKb, memDevSentinel, memDevSentinelBare]).total_bytes =
      some (dimmSizesSum
        (collect_memory_with_smbios [memDevKb, memDevSentinel, memDevSentinelBare])) := by
  have h := (memory_total_invariant [memDevKb, memDevSentinel, memDevSentinelBare]).2
    (by decide)
  rw [h]
  decide

/-- C4: the three size encodings compute the exact byte counts — kilobytes
times 1024, non-sentinel megabytes times 1024 squared, sentinel megabytes
deferring to the extended field — and the sentinel with no extended record
yields the raw sentinel megabyte value multiplied out (total function, no
panic); the megabyte computation is what the collector records for an
emitted megabyte-encoded device. -/
theorem memory_size_resolution :
    (∀ kb ext, sizeFromSizeInfo (MemSize.Kilobytes kb) ext = kb * 1024) ∧
    (∀ mb ext, mb ≠ 0x7FFF → megabytesFieldBytes mb ext = mb * 1024 * 1024) ∧
    (∀ mbExt, megabytesFieldBytes 0x7FFF (some (MemSizeExtended.Megabytes mbExt)) =
      mbExt * 1024 * 1024) ∧
    (megabytesFieldBytes 0x7FFF none = 0x7FFF * 1024 * 1024) ∧
    (∀ r mb, r.size = some (MemSize.Megabytes mb) → 0 < mb →
      (processMemoryDevice r).bind DimmInfo.size_bytes =
        some (megabytesFieldBytes mb r.extended_size)) := by
  refine ⟨fun kb ext => rfl, fun mb ext hmb => ?_, fun mbExt => rfl, rfl, ?_⟩
  · simp [megabytesFieldBytes, hmb]
  · intro r mb hr hpos
    simp only [processMemoryDevice, hr, if_pos hpos]
    simp [dimmOfMegabytes]

/-- C4 witness: the size-resolution theorem instantiated at each encoding,
with its hypotheses discharged on concrete values. -/
theorem memory_size_resolution_witness :
    megabytesFieldBytes 2048 none = 2048 * 1024 * 1024 ∧
    (processMemoryDevice memDevSentinelBare).bind DimmInfo.size_bytes =
      some (megabytesFieldBytes 0x7FFF memDevSentinelBare.extended_size) :=
  ⟨memory_size_resolution.2.1 2048 none (by decide),
   memory_size_resolution.2.2.2.2 memDevSentinelBare 0x7FFF (by decide) (by decide)⟩

/-- A memory-device record whose manufacturer and serial hold the two
non-filtered firmware placeholders. -/
def memDevPlaceholder : RawMemoryDevice :=
  { size := some (MemSize.Megabytes 2048), extended_size := none
    device_locator := some "DIMM A1", mem_type_value_dbg := none
    mem_type_full_dbg := none, configured_speed := none, max_speed := none
    manufacturer := some "To Be Filled By O.E.M."
    serial_number := some "Default string", part_number := none }

/-- C5 counterexample: a device whose manufacturer reads
To Be Filled By O.E.M. and whose serial reads Default string is emitted with
those placeholder strings intact — the collector does not filter them, so an
emitted DimmInfo string field can hold a placeholder value. -/
theorem memory_placeholder_filtering_cx :
    (processMemoryDevice memDevPlaceholder).map DimmInfo.manufacturer =
      some (some "To Be Filled By O.E.M.") ∧
    (processMemoryDevice memDevPlaceholder).map DimmInfo.serial_number =
      some (some "Default string") := by
  exact ⟨by decide, by decide⟩

/-- C5 amended: for every emitted DIMM, the manufacturer, serial-number and
part-number fields are absent exactly when the raw value is empty or is the
single placeholder Not Specified (the placeholders To Be Filled By O.E.M. and
Default string pass through), and the slot label is filtered only for
emptiness. -/
theorem memory_placeholder_filtering_amended {r : RawMemoryDevice} {d : DimmInfo}
    (h : processMemoryDevice r = some d) :
    (∀ s, r.manufacturer = some s →
      d.manufacturer = if strIsEmpty s = true ∨ s = "Not Specified" then none else some s) ∧
    (∀ s, r.serial_number = some s →
      d.serial_number = if strIsEmpty s = true ∨ s = "Not Specified" then none else some s) ∧
    (∀ s, r.part_number = some s →
      d.part_number = if strIsEmpty s = true ∨ s = "Not Specified" then none else some s) ∧
    (∀ s, r.device_locator = some s →
      d.slot = if strIsEmpty s = true then none else some s) := by
  obtain ⟨hslot, hman, hser, hpart⟩ := processMemoryDevice_strings h
  refine ⟨fun s hs => ?_, fun s hs => ?_, fun s hs => ?_, fun s hs => ?_⟩
  · rw [hman, hs]
    simp only [keepNotSpecified, Option.bind_some]
    split
    · next hc =>
      rcases hc with hc | hc
      · simp [hc]
      · simp [hc]
    · next hc =>
      push_neg at hc
      simp [hc.1, hc.2]
  · rw [hser, hs]
    simp only [keepNotSpecified, Option.bind_some]
    split
    · next hc =>
      rcases hc with hc | hc
      · simp [hc]
      · simp [hc]
    · next hc =>
      push_neg at hc
      simp [hc.1, hc.2]
  · rw [hpart, hs]
    simp only [keepNotSpecified, Option.bind_some]
    split
    · next hc =>
      rcases hc with hc | hc
      · simp [hc]
      · simp [hc]
    · next hc =>
      push_neg at hc
      simp [hc.1, hc.2]
  · rw [hslot, hs]
    simp only [keepNonEmpty, Option.bind_some]
    split
    · next hc => simp [hc]
    · next hc => simp [hc]

/-- The DIMM the collector emits for memDevPlaceholder. -/
def dimmPlaceholderOut : DimmInfo :=
  DimmInfo.mk (some "DIMM A1") (some (2048 * 1024 * 1024)) none none
    (some "To Be Filled By O.E.M.") (some "Default string") none

/-- C5 witness: the amended filtering instantiated on the concrete
placeholder-carrying record. -/
theorem memory_placeholder_filtering_amended_witness :
    dimmPlaceholderOut.manufacturer =
      if strIsEmpty "To Be Filled By O.E.M." = true ∨
         "To Be Filled By O.E.M." = "Not Specified" then none
      else some "To Be Filled By O.E.M." :=
  (memory_placeholder_filtering_amended
    (show processMemoryDevice memDevPlaceholder = some dimmPlaceholderOut by decide)).1
    "To Be Filled By O.E.M." (by decide)

/-- The first processor record of the C6 end-to-end scenario: 4 cores, 8
threads, current speed 2400 MHz, cache handles pointing at no cache
record. -/
def cpuProcFirst : RawProcessor :=
  { socket_designation := some "CPU0", processor_manufacturer := some "AMD"
    processor_version := some " EPYC 7262 ", thread_count := some (CountVal.Count 8)
    core_count := some (CountVal.Count 4), current_speed := some (SpeedVal.MHz 2400)
    max_speed := some (SpeedVal.MHz 3200), l1cache_handle := some 10
    l2cache_handle := some 11, l3cache_handle := some 12 }

/-- The second processor record of the C6 scenario: current speed 2600
MHz. -/
def cpuProcSecond : RawProcessor :=
  { cpuProcFirst with socket_designation := some "CPU1"
                      current_speed := some (SpeedVal.MHz 2600) }

/-- C6: the two-record scenario yields two sockets with indices 0 and 1 in
order, absent cache fields, and totals sockets 2, cores 8, threads 16; in
general the socket count is the number of processor records (absent when
zero), the emitted sockets carry ascending 0-based indices, and the core and
thread totals are the sums over the parsed sockets (absent when zero) as long
as the sum fits the u32 accumulator. -/
theorem cpu_aggregation (procs : List RawProcessor) (caches : List CacheRecord) :
    (collect_cpu_info [cpuProcFirst, cpuProcSecond] [] =
      CpuInfo.mk (some 2) (some 8) (some 16)
        [CpuSocket.mk 0 (some "AMD") (some "EPYC 7262") (some 4) (some 8) (some 2400)
          (some "CPU0") none none none,
         CpuSocket.mk 1 (some "AMD") (some "EPYC 7262") (some 4) (some 8) (some 2600)
          (some "CPU1") none none none]) ∧
    ((collect_cpu_info procs caches).sockets =
      if procs.length = 0 then none else some procs.length) ∧
    ((collect_cpu_info procs caches).cpus.map CpuSocket.socket =
      List.range procs.length) ∧
    (coresSum (collect_with_smbios procs caches) < 2 ^ 32 →
      (collect_cpu_info procs caches).cores =
        if coresSum (collect_with_smbios procs caches) = 0 then none
        else some (coresSum (collect_with_smbios procs caches))) ∧
    (threadsSum (collect_with_smbios procs caches) < 2 ^ 32 →
      (collect_cpu_info procs caches).threads =
        if threadsSum (collect_with_smbios procs caches) = 0 then none
        else some (threadsSum (collect_with_smbios procs caches))) := by
  refine ⟨by decide, ?_, ?_, ?_, ?_⟩
  · simp only [collect_cpu_info]
    rw [collect_with_smbios_length]
    by_cases h0 : procs.length = 0
    · simp [h0]
    · simp [h0, Nat.pos_of_ne_zero h0]
  · simp only [collect_cpu_info]
    exact collect_with_smbios_socket_indices procs caches
  · intro hsum
    simp only [collect_cpu_info, accumCores]
    rw [accum_cores_eq_sum (collect_with_smbios procs caches) 0 (by omega)]
    simp only [Nat.zero_add]
    by_cases h0 : coresSum (collect_with_smbios procs caches) = 0
    · simp [h0]
    · simp [h0, Nat.pos_of_ne_zero h0]
  · intro hsum
    simp only [collect_cpu_info, accumThreads]
    rw [accum_threads_eq_sum (collect_with_smbios procs caches) 0 (by omega)]
    simp only [Nat.zero_add]
    by_cases h0 : threadsSum (collect_with_smbios procs caches) = 0
    · simp [h0]
    · simp [h0, Nat.pos_of_ne_zero h0]

/-- C6 witness: the aggregation theorem instantiated on the scenario table,
with the u32 bound discharged concretely. -/
theorem cpu_aggregation_witness :
    (collect_cpu_info [cpuProcFirst, cpuProcSecond] []).cores =
      if coresSum (collect_with_smbios [cpuProcFirst, cpuProcSecond] []) = 0 then none
      else some (coresSum (collect_with_smbios [cpuProcFirst, cpuProcSecond] [])) :=
  (cpu_aggregation [cpuProcFirst, cpuProcSecond] []).2.2.2.1 (by decide)

/-- A bare interface entry: only the name and the device-directory existence
flag are set, every raw source is absent. -/
def mkNetEntry (name : String) (deviceExists : Bool) : NetIfEntry :=
  { name := name, deviceExists := deviceExists, addressRaw := none, mtuRaw := none
    speedRaw := none, ethtoolOut := none, ethtoolInfoOut := none, driverLink := none
    deviceLink := none, vendorRaw := none, deviceRaw := none, masterLink := none
    hasGlobalInet := false }

/-- A sysfs tree exposing a single interface named bondvlan0 without a PCI
device directory. -/
def netEnvBondVlan : NetEnv :=
  { entries := [mkNetEntry "bondvlan0" false], addrMap := [], routes := [], pciDb := none }

/-- C7 counterexample: bondvlan0 starts with bond yet is classified virtual
(its name contains vlan, and the exclusion patterns are checked before the
bond/team inclusion), so a bond-named interface is missing from the
collected interfaces. -/
theorem network_filter_cx :
    startsWithStr "bondvlan0" "bond" = true ∧
    is_virtual_interface "bondvlan0" false = true ∧
    (collect_network_info netEnvBondVlan).interfaces = [] := by
  exact ⟨by decide, by decide, by decide⟩

/-- C7 amended: an interface whose name matches an excluded virtual pattern
(the excluded family name starts, or a name containing vlan) never appears in
the collected interfaces, and an interface whose name starts with bond or
team and does not also match an excluded pattern always appears, even with no
PCI device directory. -/
theorem network_filter_amended (env : NetEnv) :
    (∀ name, hasVirtualNamePattern name = true →
      ∀ i ∈ (collect_network_info env).interfaces, i.name ≠ name) ∧
    (∀ e ∈ env.entries,
      (startsWithStr e.name "bond" || startsWithStr e.name "team") = true →
      hasVirtualNamePattern e.name = false →
      ∃ i ∈ (collect_network_info env).interfaces, i.name = e.name) := by
  constructor
  · intro name hpat i hi heq
    simp only [collect_network_info] at hi
    obtain ⟨e, _, hfe⟩ := List.mem_filterMap.mp hi
    by_cases hv : is_virtual_interface e.name e.deviceExists
    · rw [if_pos hv] at hfe
      exact Option.noConfusion hfe
    · rw [if_neg hv] at hfe
      injection hfe with hfe
      have hEname : e.name = name := by
        rw [← heq, ← hfe]
        rfl
      apply hv
      unfold is_virtual_interface
      rw [hEname, hpat]
      simp
  · intro e he hbt hpat
    refine ⟨buildNetInterface env e, ?_, rfl⟩
    simp only [collect_network_info]
    apply List.mem_filterMap.mpr
    refine ⟨e, he, ?_⟩
    have hv : is_virtual_interface e.name e.deviceExists = false := by
      unfold is_virtual_interface
      rw [hpat, hbt]
      simp
    simp [hv]

/-- A sysfs tree exposing lo, docker0, a PCI-backed eth0, and a deviceless
bond0. -/
def netEnvScenario : NetEnv :=
  { entries := [mkNetEntry "lo" false, mkNetEntry "docker0" false,
                mkNetEntry "eth0" true, mkNetEntry "bond0" false]
    addrMap := [], routes := [], pciDb := none }

/-- C7 witness: the amended theorem instantiated on the concrete sysfs tree,
showing docker0 excluded and the deviceless bond0 included. -/
theorem network_filter_amended_witness :
    (∀ i ∈ (collect_network_info netEnvScenario).interfaces, i.name ≠ "docker0") ∧
    (∃ i ∈ (collect_network_info netEnvScenario).interfaces, i.name = "bond0") :=
  ⟨(network_filter_amended netEnvScenario).1 "docker0" (by decide),
   (network_filter_amended netEnvScenario).2 (mkNetEntry "bond0" false)
     (by simp [netEnvScenario]) (by decide) (by decide)⟩

/-- The dmidecode output of the C8 scenario: one power-supply record behind a
Power Supply handle boundary line. -/
def dmidecodePsuText : String :=
  "Power Supply Handle 0x0035\n\tName: PWR SPLY,495W\n\tManufacturer: DELL\n" ++
  "\tSerial Number: PSU123\n\tMax Power Capacity: 495 W\n\tStatus: Present, OK\n"

/-- The sysfs power-supply-class entry of the C8 scenario, describing the
same physical unit (same serial) as the dmidecode record. -/
def sysfsPsuSame : SysfsPsuEntry :=
  SysfsPsuEntry.mk "PSU1" (some "OK\n") (some "DELL\n") (some "PWR SPLY,495W\n")
    (some "PSU123\n")

/-- The C8 environment: the firmware-table parser and the sysfs walker each
see one PSU for the same physical unit, the other strategies see nothing. -/
def powerEnvScenario : PowerEnv :=
  { dmidecodeOut := some (true, dmidecodePsuText), ipmiSdrListOut := none
    ipmiSdrGetOut := fun _ => none, lshwOut := none, apcaccessOut := none
    upscOut := none, sysfsPsus := some [sysfsPsuSame] }

/-- C8: the power-supply result is exactly the in-order concatenation of the
five strategies with no cross-strategy deduplication — its length is the sum
of the five strategy lengths — and on the concrete environment where the
firmware-table parser and the sysfs walker each detect the same physical
unit, the result holds two entries carrying the same serial. -/
theorem power_concat_no_dedup (env : PowerEnv) :
    (collect_power_supplies env =
      ((collect_power_supplies_dmidecode env.dmidecodeOut).getD []) ++
      ((collect_power_supplies_ipmi env).getD []) ++
      ((collect_power_supplies_lshw env.lshwOut).getD []) ++
      ((collect_ups_information env).getD []) ++
      ((collect_power_supplies_sysfs env.sysfsPsus).getD [])) ∧
    ((collect_power_supplies env).length =
      ((collect_power_supplies_dmidecode env.dmidecodeOut).getD []).length +
      ((collect_power_supplies_ipmi env).getD []).length +
      ((collect_power_supplies_lshw env.lshwOut).getD []).length +
      ((collect_ups_information env).getD []).length +
      ((collect_power_supplies_sysfs env.sysfsPsus).getD []).length) ∧
    (collect_power_supplies powerEnvScenario).length = 2 ∧
    (collect_power_supplies powerEnvScenario).map PowerSupplyInfo.serial_number =
      [some "PSU123", some "PSU123"] := by
  refine ⟨rfl, ?_, by decide, by decide⟩
  simp [collect_power_supplies]
  omega

/-- The ambiguous smartctl -H output of the C9 counterexample: it contains
both the PASSED and the FAILED markers. -/
def ambiguousSmartText : String :=
  "SMART overall-health self-assessment test result: PASSED\n" ++
  "Warning: a previous self-test FAILED\n"

/-- A storage environment whose smartctl -H run returns the ambiguous
output. -/
def storageEnvAmbiguous : StorageEnv :=
  { blockNames := ["sda"], devNodeExists := fun _ => true, fsRead := fun _ => none
    linkTarget := fun _ => none
    smartctlRun := fun args =>
      if args = ["-H", "/dev/sda"] then some (true, ambiguousSmartText) else none
    hdparmRun := fun _ => none, nvmeRun := fun _ => none, udevadmRun := fun _ => none }

/-- C9 counterexample: an output containing both the PASSED and FAILED
markers yields the verdict PASSED, not absent — the PASSED branch is checked
first, so the ambiguous output is not mapped to absence. -/
theorem smart_health_ambiguous_cx :
    containsStr ambiguousSmartText "PASSED" = true ∧
    containsStr ambiguousSmartText "FAILED" = true ∧
    smartctl_health storageEnvAmbiguous "/dev/sda" none =
      some (SmartInfo.mk (some "PASSED")) := by
  exact ⟨by decide, by decide, by decide⟩

/-- C9 amended: the verdict is always exactly one of PASSED, FAILED or
absent; an output containing neither marker yields absent; an output
containing PASSED — even alongside FAILED — yields PASSED; an output
containing FAILED but not PASSED yields FAILED; and every SmartInfo the SMART
probe returns carries only one of the three verdicts. -/
theorem smart_health_amended :
    (∀ text, smartHealthVerdict text = none ∨ smartHealthVerdict text = some "PASSED" ∨
      smartHealthVerdict text = some "FAILED") ∧
    (∀ text, containsStr text "PASSED" = false → containsStr text "FAILED" = false →
      smartHealthVerdict text = none) ∧
    (∀ text, containsStr text "PASSED" = true →
      smartHealthVerdict text = some "PASSED") ∧
    (∀ text, containsStr text "PASSED" = false → containsStr text "FAILED" = true →
      smartHealthVerdict text = some "FAILED") ∧
    (∀ env dev bus si, collect_smart_info env dev bus = some si →
      si.health = none ∨ si.health = some "PASSED" ∨ si.health = some "FAILED") := by
  have htri : ∀ text, smartHealthVerdict text = none ∨
      smartHealthVerdict text = some "PASSED" ∨ smartHealthVerdict text = some "FAILED" := by
    intro text
    unfold smartHealthVerdict
    split
    · exact Or.inr (Or.inl rfl)
    · split
      · exact Or.inr (Or.inr rfl)
      · exact Or.inl rfl
  refine ⟨htri, ?_, ?_, ?_, ?_⟩
  · intro text hp hf
    simp [smartHealthVerdict, hp, hf]
  · intro text hp
    simp [smartHealthVerdict, hp]
  · intro text hp hf
    simp [smartHealthVerdict, hp, hf]
  · intro env dev bus si h
    unfold collect_smart_info at h
    cases hsh : smartctl_health env dev bus with
    | some s =>
      rw [hsh] at h
      injection h with h
      subst h
      unfold smartctl_health at hsh
      cases hts : toolStdout (env.smartctlRun
          (["-H"] ++ (if bus = some "nvme" then ["-d", "nvme"] else []) ++ [dev])) with
      | none =>
        simp only [hts, Option.map_none'] at hsh
        exact Option.noConfusion hsh
      | some text =>
        simp only [hts, Option.map_some'] at hsh
        injection hsh with hsh
        rw [← hsh]
        exact htri text
    | none =>
      rw [hsh] at h
      unfold nvme_cli_smart at h
      by_cases hb : bus = some "nvme"
      · rw [if_neg (by simp [hb])] at h
        cases htn : toolStdout (env.nvmeRun ["smart-log", dev]) with
        | none => rw [htn] at h; exact Option.noConfusion h
        | some text =>
          rw [htn] at h
          simp only [Option.map_some'] at h
          injection h with h
          rw [← h]
          exact Or.inl rfl
      · rw [if_pos (by simp [hb])] at h
        exact Option.noConfusion h

/-- C9 witness: the amended verdict behaviour instantiated on a concrete
FAILED-only output and on the ambiguous-environment probe. -/
theorem smart_health_amended_witness :
    smartHealthVerdict "self-test FAILED" = some "FAILED" ∧
    ((SmartInfo.mk (some "PASSED")).health = none ∨
     (SmartInfo.mk (some "PASSED")).health = some "PASSED" ∨
     (SmartInfo.mk (some "PASSED")).health = some "FAILED") :=
  ⟨smart_health_amended.2.2.2.1 "self-test FAILED" (by decide) (by decide),
   smart_health_amended.2.2.2.2 storageEnvAmbiguous "/dev/sda" none
     (SmartInfo.mk (some "PASSED")) (by decide)⟩

/-- The sysfs tree of the C2 evaluation: the NVMe controller files exist at
the controller path the documentation names. -/
def nvmeCtrlFs : List (String × String) :=
  [("/sys/class/nvme/nvme0/firmware_rev", "1.2.3"),
   ("/sys/class/nvme/nvme0/serial", "S1X2Y3")]

/-- A storage environment exposing one NVMe namespace nvme0n1 whose
controller sysfs files are populated; every external tool is absent. -/
def storageEnvNvme : StorageEnv :=
  { blockNames := ["nvme0n1"], devNodeExists := fun _ => true
    fsRead := lookupList nvmeCtrlFs, linkTarget := fun _ => none
    smartctlRun := fun _ => none, hdparmRun := fun _ => none
    nvmeRun := fun _ => none, udevadmRun := fun _ => none }

/-- C2: the collector resolves the controller of nvme0n1 as the piece of the
name before its first letter n — the empty string, because the name itself
starts with n — instead of nvme0, so the firmware and serial reads target
/sys/class/nvme itself and miss the populated controller files. -/
theorem nvme_controller_resolution_eval :
    nvmeControllerOf "nvme0n1" = "" ∧
    nvmeControllerOf "nvme0n1" ≠ "nvme0" ∧
    read_to_string_trim storageEnvNvme "/sys/class/nvme/nvme0/firmware_rev" =
      some "1.2.3" ∧
    (collect_single_disk storageEnvNvme "nvme0n1" "/sys/block/nvme0n1"
      "/dev/nvme0n1").firmware_version = none ∧
    (collect_single_disk storageEnvNvme "nvme0n1" "/sys/block/nvme0n1"
      "/dev/nvme0n1").serial = none ∧
    pathJoin (pathJoin "/sys/class/nvme" (nvmeControllerOf "nvme0n1")) "firmware_rev" =
      "/sys/class/nvme/firmware_rev" := by
  exact ⟨by decide, by decide, by decide, by decide, by decide, by decide⟩

/-- A BMC environment in which every detection strategy in the priority chain
fails. -/
def bmcEnvAllFail : BmcEnv :=
  { pathExists := fun _ => false, netIfaceNames := [], netstatOut := none
    whichRunOk := false, mcInfoOut := none, lanPrintOut := none
    curlOut := fun _ => none }

/-- C10: the bmc field of every collected NodeInfo is present, wrapping the
chain result, and when every strategy in the chain fails that result is the
record with all four fields absent — an absent bmc field is never
produced. -/
theorem bmc_always_present (env : NodeEnv) :
    (collect_node_info env).bmc = some (collect_bmc_from_dmi env.bmc) ∧
    (collect_node_info env).bmc.isSome = true ∧
    (collect_node_info { env with bmc := bmcEnvAllFail }).bmc =
      some (BmcInfo.mk none none none none) := by
  exact ⟨rfl, rfl, rfl⟩

/-- C1: the aggregate inventory is a total function of the environment — it
always carries the agent version and one record per category, each produced
by its collector — and on the fully degraded environment (no firmware table,
no sysfs trees, every tool missing) it evaluates to the fully structured
report whose gaps are absent fields and empty sequences. -/
theorem inventory_always_fully_populated (env : Env) :
    (collect_full_inventory env).agent_version = "1.0.0" ∧
    (collect_full_inventory env).node = collect_node_info env.node ∧
    (collect_full_inventory env).cpu = collect_cpu_info env.processors env.caches ∧
    (collect_full_inventory env).memory = collect_memory_info env.memoryDevices ∧
    (collect_full_inventory env).disks = collect_disks env.storage ∧
    (collect_full_inventory env).network = collect_network_info env.network ∧
    (collect_full_inventory env).gpus = collect_gpus env.gpu ∧
    (collect_full_inventory env).power_supplies = collect_power_supplies env.power ∧
    collect_full_inventory emptyEnv = Inventory.mk "1.0.0"
      (NodeInfo.mk "unknown" "x86_64" none none none none none none none (some emptyBmcInfo))
      (CpuInfo.mk none none none []) (MemoryInfo.mk none []) []
      (NetworkInfo.mk [] []) [] [] := by
  exact ⟨rfl, rfl, rfl, rfl, rfl, rfl, rfl, rfl, by decide⟩

end FarmManager
